import Mathlib

/-!
# Verification of the PCAgent spreadsheet-ingestion pipeline

Shallow embedding of the ingestion core of the PCAgent repository:
`data_processor.py` (interactive per-file ingestion: sheet classification,
row extraction, customer identity resolution against a live store) and
`experiment.py` (batch standardization: keyword sheet classifier, sales/item
extraction, product-catalog resolution, relationship building).

The persistence layer (`database.py`, class `DatabaseManager`) is not part of
the provided sources; its operations are modelled from the spec where noted.

Conventions:
* Spreadsheet cells are `Cell`: null (`na`), text, or a numeric value
  modelled as `Rat`.
* Python `str()` of a numeric cell is rendered by `strOfCell`; non-integer
  rationals use a `num/den` rendering (Python renders decimals; no claim
  depends on that branch).
* Python `float(...)` parsing of text is modelled by `parseFloat`
  (sign, decimal point, exponent, underscore digit grouping, the
  case-insensitive `inf`/`infinity`/`nan` forms, and overflow to a signed
  infinity at the IEEE bound). Finite values are kept as exact rationals
  rather than rounded to binary doubles, and tiny values are not flushed
  to zero; no claim depends on finite-value rounding.
* Exceptions the source lets escape are modelled with `Except`.
-/

set_option maxRecDepth 10000

namespace PCAgent

/-! ## Characters, digits, decimal rendering of numbers -/

/-- The decimal digit character for `n` (callers only use `n < 10`). -/
def digitChar (n : Nat) : Char :=
  match n with
  | 0 => '0' | 1 => '1' | 2 => '2' | 3 => '3' | 4 => '4'
  | 5 => '5' | 6 => '6' | 7 => '7' | 8 => '8' | _ => '9'

/-- Numeric value of a decimal digit character. -/
def digitVal (c : Char) : Nat :=
  match c with
  | '0' => 0 | '1' => 1 | '2' => 2 | '3' => 3 | '4' => 4
  | '5' => 5 | '6' => 6 | '7' => 7 | '8' => 8 | '9' => 9 | _ => 0

/-- Decimal digits of `n`, least significant first; `fuel` bounds recursion
(structural recursion so that proofs and `decide` reduce). -/
def natDigitsRev : Nat → Nat → List Char
  | 0, _ => []
  | f + 1, n =>
    if n < 10 then [digitChar n] else digitChar (n % 10) :: natDigitsRev f (n / 10)

/-- Decimal rendering of a natural number, as Python `str` renders a
non-negative `int`. -/
def natStr (n : Nat) : String :=
  ⟨(natDigitsRev (n + 1) n).reverse⟩

/-- Decimal rendering of an integer, as Python `str` renders an `int`. -/
def intStr (i : Int) : String :=
  if i < 0 then "-" ++ natStr i.natAbs else natStr i.natAbs

/-- Value of a least-significant-first digit list (left inverse used to show
`natStr` is injective). -/
def valRev : List Char → Nat
  | [] => 0
  | c :: cs => digitVal c + 10 * valRev cs

theorem digitVal_digitChar {d : Nat} (h : d < 10) : digitVal (digitChar d) = d := by
  interval_cases d <;> decide

theorem digitChar_ne_underscore (d : Nat) : digitChar d ≠ '_' := by
  unfold digitChar; split <;> decide

theorem valRev_natDigitsRev : ∀ fuel n, n < fuel → valRev (natDigitsRev fuel n) = n := by
  intro fuel
  induction fuel with
  | zero => intro n h; omega
  | succ f ih =>
    intro n h
    unfold natDigitsRev
    by_cases h10 : n < 10
    · simp [h10, valRev, digitVal_digitChar h10]
    · have hd : n / 10 < f := by omega
      simp only [h10, if_false, valRev, ih (n / 10) hd,
        digitVal_digitChar (Nat.mod_lt n (by omega))]
      omega

theorem natStr_injective : Function.Injective natStr := by
  intro m n h
  have hdata : (natDigitsRev (m + 1) m).reverse = (natDigitsRev (n + 1) n).reverse := by
    simpa [natStr] using congrArg String.data h
  have : natDigitsRev (m + 1) m = natDigitsRev (n + 1) n :=
    List.reverse_injective hdata
  have hm := valRev_natDigitsRev (m + 1) m (by omega)
  have hn := valRev_natDigitsRev (n + 1) n (by omega)
  rw [← hm, ← hn, this]

theorem natDigitsRev_ne_underscore :
    ∀ fuel n c, c ∈ natDigitsRev fuel n → c ≠ '_' := by
  intro fuel
  induction fuel with
  | zero => intro n c h; simp [natDigitsRev] at h
  | succ f ih =>
    intro n c h
    unfold natDigitsRev at h
    by_cases h10 : n < 10
    · simp [h10] at h; subst h; exact digitChar_ne_underscore n
    · simp [h10] at h
      rcases h with h | h
      · subst h; exact digitChar_ne_underscore (n % 10)
      · exact ih _ _ h

theorem natStr_no_underscore (n : Nat) : ∀ c ∈ (natStr n).data, c ≠ '_' := by
  intro c hc
  simp only [natStr, List.mem_reverse] at hc
  exact natDigitsRev_ne_underscore _ _ _ hc

/-! ## Substring search

Python's `needle in haystack` on strings, used pervasively by the
classifiers (`identify_sheet_type`, `_is_sales_sheet`, `_is_header_row`,
`get_product_info`, ...). -/

/-- Python `.upper()` (character-wise; kernel-reducible model of
`String.toUpper`). -/
def strUpper (s : String) : String :=
  ⟨s.data.map Char.toUpper⟩

/-- Python `.strip()` (whitespace from both ends; kernel-reducible model of
`String.trim`). -/
def strTrim (s : String) : String :=
  ⟨((s.data.dropWhile Char.isWhitespace).reverse.dropWhile Char.isWhitespace).reverse⟩

/-- Python `' '.join(parts)`. -/
def joinSpace : List String → String
  | [] => ""
  | x :: xs => xs.foldl (fun a b => a ++ " " ++ b) x

/-- `leadEq needle l` : `needle` matches the first characters of `l`. -/
def leadEq : List Char → List Char → Bool
  | [], _ => true
  | _ :: _, [] => false
  | a :: as, b :: bs => a == b && leadEq as bs

/-- `subChars needle l` : `needle` occurs contiguously somewhere in `l`. -/
def subChars (needle : List Char) : List Char → Bool
  | [] => leadEq needle []
  | b :: bs => leadEq needle (b :: bs) || subChars needle bs

/-- Python `needle in hay` for strings. -/
def occursIn (needle hay : String) : Bool :=
  subChars needle.data hay.data

/-! ## Parsing numbers: Python `float(text)` -/

/-- Value of a most-significant-first digit list. -/
def digitsToNat (l : List Char) : Nat :=
  l.foldl (fun a c => a * 10 + digitVal c) 0

/-- The result of Python `float(...)`: a finite value (kept as an exact
rational), a signed IEEE infinity, or NaN. -/
inductive PyFloat where
  | fin (v : Rat)
  | inf (neg : Bool)
  | nan
deriving DecidableEq, Repr

/-- Equality of `Except` results is decidable when both components' are
(used to evaluate the modelled exception paths with `decide`). -/
instance exceptDecEq {ε α : Type} [DecidableEq ε] [DecidableEq α] :
    DecidableEq (Except ε α) := fun a b =>
  match a, b with
  | .ok x, .ok y =>
    if h : x = y then .isTrue (by rw [h]) else .isFalse (fun hh => h (Except.ok.inj hh))
  | .error x, .error y =>
    if h : x = y then .isTrue (by rw [h]) else .isFalse (fun hh => h (Except.error.inj hh))
  | .ok _, .error _ => .isFalse (fun hh => Except.noConfusion hh)
  | .error _, .ok _ => .isFalse (fun hh => Except.noConfusion hh)

/-- A maximal run of decimal digits in which single underscores may sit
between digits (PEP 515, accepted by `float(str)`): returns the digits
(underscores removed) and the unconsumed input. The input must start with a
digit; a trailing or doubled underscore is left unconsumed, so enclosing
parsers reject it. `fuel` bounds the recursion structurally (callers pass
the input length, which suffices: every recursive call drops at least one
character). -/
def digitGroupRestF : Nat → List Char → List Char × List Char
  | 0, t => ([], t)
  | fuel + 1, t =>
    match t with
    | [] => ([], [])
    | c :: cs =>
      if !c.isDigit then ([], c :: cs)
      else
        match cs with
        | '_' :: rest =>
          match rest with
          | d :: _ =>
            if d.isDigit then
              let p := digitGroupRestF fuel rest
              (c :: p.1, p.2)
            else ([c], cs)
          | [] => ([c], cs)
        | _ =>
          let p := digitGroupRestF fuel cs
          (c :: p.1, p.2)

/-- The underscore-grouped digit run at the head of the input. -/
def digitGroupRest (t : List Char) : List Char × List Char :=
  digitGroupRestF t.length t

/-- Parse one underscore-grouped digit run; `none` when the input does not
start with a digit. -/
def parseGroup? (t : List Char) : Option (List Char × List Char) :=
  match t with
  | c :: _ => if c.isDigit then some (digitGroupRest t) else none
  | [] => none

/-- Parse the mantissa `digits[.digits]` / `digits.` / `.digits` (with
underscore grouping), returning its value and the unconsumed input. -/
def parseMantissa (t : List Char) : Option (Rat × List Char) :=
  match parseGroup? t with
  | some (ip, r1) =>
    match r1 with
    | '.' :: r2 =>
      match parseGroup? r2 with
      | some (fp, r3) =>
        some ((digitsToNat ip : Rat) + (digitsToNat fp : Rat) / ((10 ^ fp.length : Nat) : Rat), r3)
      | none => some ((digitsToNat ip : Rat), r2)
    | _ => some ((digitsToNat ip : Rat), r1)
  | none =>
    match t with
    | '.' :: r2 =>
      match parseGroup? r2 with
      | some (fp, r3) => some ((digitsToNat fp : Rat) / ((10 ^ fp.length : Nat) : Rat), r3)
      | none => none
    | _ => none

/-- Parse the `[±]digits` tail of an exponent. -/
def parseExponentTail (t : List Char) : Option (Int × List Char) :=
  let sr : Int × List Char :=
    match t with
    | '-' :: rr => (-1, rr)
    | '+' :: rr => (1, rr)
    | _ => (1, t)
  match parseGroup? sr.2 with
  | some (ds, rest) => some (sr.1 * (digitsToNat ds : Int), rest)
  | none => none

/-- A power of ten as an exact rational, computed through `Nat.pow` (which
kernel evaluation accelerates). -/
def pow10 (e : Int) : Rat :=
  if 0 ≤ e then ((10 ^ e.toNat : Nat) : Rat)
  else (1 : Rat) / ((10 ^ (-e).toNat : Nat) : Rat)

/-- Parse an unsigned numeric literal `mantissa[e[±]digits]`; the whole
input must be consumed. -/
def parseUnsignedNum (t : List Char) : Option Rat :=
  match parseMantissa t with
  | some (m, rest) =>
    match rest with
    | [] => some m
    | 'e' :: r =>
      (parseExponentTail r).bind
        (fun p => if p.2.isEmpty then some (m * pow10 p.1) else none)
    | 'E' :: r =>
      (parseExponentTail r).bind
        (fun p => if p.2.isEmpty then some (m * pow10 p.1) else none)
    | _ => none
  | none => none

/-- Magnitudes at or above this bound round to IEEE infinity when converted
to a binary double (`2^1024 - 2^970` is the midpoint above the largest
finite double; round-half-to-even sends it up). Python `float("1e999")` is
`inf` for exactly this reason. -/
def dblOverflow : Rat := ((2 ^ 1024 - 2 ^ 970 : Nat) : Rat)

/-- Python `float` of a whitespace-trimmed character run: optional sign,
then case-insensitive `inf`/`infinity`/`nan` or a numeric literal; numeric
magnitudes at or above `dblOverflow` become the signed infinity. -/
def parseFloatCore (t : List Char) : Option PyFloat :=
  let st : Bool × List Char :=
    match t with
    | '-' :: r => (true, r)
    | '+' :: r => (false, r)
    | _ => (false, t)
  let low := st.2.map Char.toLower
  if low = "inf".data ∨ low = "infinity".data then some (.inf st.1)
  else if low = "nan".data then some .nan
  else
    match parseUnsignedNum st.2 with
    | some m =>
      if dblOverflow ≤ m then some (.inf st.1)
      else some (.fin (if st.1 then -m else m))
    | none => none

/-- Python `float(s)`: `none` models a raised `ValueError`. Surrounding
whitespace is ignored, as Python does. Finite values are kept as exact
rationals instead of being rounded to the nearest binary double (and tiny
values are not flushed to zero); magnitudes past the IEEE overflow bound
become infinities, as in Python. -/
def parseFloat (s : String) : Option PyFloat :=
  parseFloatCore (strTrim s).data

/-- Python `int(x)` truncation toward zero for a finite float. -/
def truncRat (q : Rat) : Int :=
  Int.tdiv q.num (q.den : Int)

/-! ## Cells, rows, dataframes -/

/-- One spreadsheet cell as seen through pandas: null (`NaN`), a string, or
a numeric value. -/
inductive Cell where
  | na
  | s (v : String)
  | num (v : Rat)
deriving DecidableEq, Repr

/-- Python `str(value)` on a cell value. `str(nan) = "nan"`. Non-integer
numbers are rendered `num/den` (Python renders decimal notation; no theorem
in this file depends on that branch). -/
def strOfCell : Cell → String
  | .na => "nan"
  | .s v => v
  | .num v => if v.den = 1 then intStr v.num else intStr v.num ++ "/" ++ natStr v.den

/-- A dataframe row together with its column index, as pandas `iterrows`
yields it. -/
structure Row where
  index : List String
  cells : List Cell
deriving DecidableEq, Repr

/-- A worksheet as pandas `read_excel` returns it: column labels plus data
rows. -/
structure DataFrame where
  cols : List String
  rows : List (List Cell)
deriving DecidableEq, Repr

/-- The rows of a dataframe, each paired with the column index
(`df.iterrows()`). -/
def dfRows (df : DataFrame) : List Row :=
  df.rows.map (fun cs => ⟨df.cols, cs⟩)

/-- pandas `df.empty`: true iff one of the axes has length 0. -/
def dfEmpty (df : DataFrame) : Bool :=
  df.rows.isEmpty || df.cols.isEmpty

/-! ## Batch-mode sheet classifier (`experiment.py`, `identify_sheet_type`) -/

/-- `experiment.py` line 213. -/
def sales_keywords : List String :=
  ["INV", "DISPATCH", "QTN", "RATE", "AMT", "FINAL AMT", "PAYMENT", "G-PAY", "CASH", "CHQ"]

/-- `experiment.py` line 218. -/
def customer_keywords : List String :=
  ["NAME", "MOBILE", "VILLAGE", "TALUKA", "DISTRICT", "MEMBER", "CODE"]

/-- `experiment.py` line 223. -/
def distributor_keywords : List String :=
  ["MANTRI", "SABHASAD", "CONTACT", "GROUP", "TOTAL", "LTR", "VILLAGE", "TALUKA"]

/-- The search corpus: uppercased column labels joined by a space
(`' '.join(columns_upper)`). -/
def columnsCorpus (df : DataFrame) : String :=
  joinSpace (df.cols.map strUpper)

/-- `any(keyword in columns_str for keyword in kws)`. -/
def anyKeyword (kws : List String) (corpus : String) : Bool :=
  kws.any (fun k => occursIn k corpus)

/-- `experiment.py` `identify_sheet_type` (lines 203-227): `empty` for a
pandas-empty frame, else first keyword set with a match wins, in the order
sales, customers, distributors; otherwise `unknown`. Note: it receives the
worksheet exactly as read, uncleaned. -/
def identify_sheet_type (df : DataFrame) : String :=
  if dfEmpty df then "empty"
  else
    let columnsStr := columnsCorpus df
    if anyKeyword sales_keywords columnsStr then "sales"
    else if anyKeyword customer_keywords columnsStr then "customers"
    else if anyKeyword distributor_keywords columnsStr then "distributors"
    else "unknown"

/-- The per-sheet dispatch of `process_all_files` (`experiment.py` lines
79-100): which row extractor runs on a sheet; `empty` and `unknown` sheets
get none. -/
inductive SheetAction where
  | sales
  | customers
  | distributors
  | skipped
deriving DecidableEq, Repr

/-- Dispatch on `identify_sheet_type` (`experiment.py` lines 79-100). -/
def dispatch_sheet (df : DataFrame) : SheetAction :=
  match identify_sheet_type df with
  | "sales" => .sales
  | "customers" => .customers
  | "distributors" => .distributors
  | _ => .skipped

/-! ## Interactive-mode cleaning and classification (`data_processor.py`) -/

/-- `_clean_dataframe` (lines 62-73): drop all-null rows, then columns that
are all-null in the remaining rows, then uppercase and trim the column
labels. A missing cell (short row) reads as null. -/
def clean_dataframe (df : DataFrame) : DataFrame :=
  let keptRows := df.rows.filter (fun r => !(r.all (· == Cell.na)))
  let keptCols := (List.range df.cols.length).filter
    (fun j => keptRows.any (fun r => ((r.get? j).getD Cell.na) != Cell.na))
  { cols := keptCols.map (fun j => strUpper (strTrim ((df.cols.get? j).getD ""))),
    rows := keptRows.map (fun r => keptCols.map (fun j => (r.get? j).getD Cell.na)) }

/-- Number of column labels containing at least one of the required
keywords — the `existing_columns` count of `_is_sales_sheet` and friends. -/
def count_matching (required : List String) (cols : List String) : Nat :=
  (cols.filter (fun col => required.any (fun req => occursIn req col))).length

/-- `_is_sales_sheet` (lines 75-79): at least 3 column labels containing one
of INVOICE/CUSTOMER/PRODUCT/QUANTITY/AMOUNT. -/
def is_sales_sheet (df : DataFrame) : Bool :=
  decide (3 ≤ count_matching ["INVOICE", "CUSTOMER", "PRODUCT", "QUANTITY", "AMOUNT"] df.cols)

/-- `_is_customer_sheet` (lines 81-85): at least 2 column labels containing
one of CUSTOMER/NAME/MOBILE/VILLAGE. -/
def is_customer_sheet (df : DataFrame) : Bool :=
  decide (2 ≤ count_matching ["CUSTOMER", "NAME", "MOBILE", "VILLAGE"] df.cols)

/-- `_is_distributor_sheet` (lines 87-91): at least 2 column labels
containing one of DISTRIBUTOR/MANTRI/SABHASAD. -/
def is_distributor_sheet (df : DataFrame) : Bool :=
  decide (2 ≤ count_matching ["DISTRIBUTOR", "MANTRI", "SABHASAD"] df.cols)

/-- The sheet dispatch of `process_excel_file` (lines 41-54): sales, then
customer, then distributor check on the cleaned frame; no match is skipped
with a warning. -/
def classify_interactive (df : DataFrame) : SheetAction :=
  if is_sales_sheet df then .sales
  else if is_customer_sheet df then .customers
  else if is_distributor_sheet df then .distributors
  else .skipped

/-! ## Field extraction (`data_processor.py`, `_safe_get` family) -/

/-- Where `_safe_get` reads from: the cell under the column label when the
label is present in the row's index, else the cell at the positional
fallback, else nothing (`data_processor.py` lines 262-274). -/
def resolve_cell (r : Row) (columnName : String) (defaultIndex : Nat) : Option Cell :=
  match (r.index.zip r.cells).find? (fun p => p.1 == columnName) with
  | some p => some p.2
  | none => r.cells.get? defaultIndex

/-- `_safe_get` (lines 259-278): the resolved cell as stripped text; null or
unresolvable cells give `""`; never raises. -/
def safe_get (r : Row) (columnName : String) (defaultIndex : Nat) : String :=
  match resolve_cell r columnName defaultIndex with
  | some c => if c == Cell.na then "" else strTrim (strOfCell c)
  | none => ""

/-- `_safe_get_int` (lines 280-288): `int(float(str_value))` of the
`_safe_get` text when non-blank, guarded by `except (ValueError,
TypeError): return 0`. `float()`'s `ValueError` on unparseable text and
`int(nan)`'s `ValueError` are caught and give 0, but `int(±inf)` raises
`OverflowError`, which that handler does **not** catch: the exception
propagates to the caller, modelled as `.error`. -/
def safe_get_int (r : Row) (columnName : String) (defaultIndex : Nat) : Except String Int :=
  if safe_get r columnName defaultIndex ≠ "" ∧
      strTrim (safe_get r columnName defaultIndex) ≠ "" then
    match parseFloat (safe_get r columnName defaultIndex) with
    | some (.fin q) => .ok (truncRat q)
    | some (.inf _) => .error "OverflowError"
    | some .nan => .ok 0
    | none => .ok 0
  else .ok 0

/-- `_safe_float` (lines 307-314): `float(value)` with 0.0 on null or
unparseable values; no `int()` conversion follows, so nothing raises. A
text cell parsing to an IEEE infinity or NaN yields a non-finite float in
the source; those values fall outside the finite-rational cell model and
are mapped to 0 here — no theorem in this file depends on that branch. -/
def safe_float (c : Cell) : Rat :=
  match c with
  | .na => 0
  | .num v => v
  | .s v =>
    match parseFloat v with
    | some (.fin q) => q
    | _ => 0

/-- `_is_header_row` (lines 290-305): the uppercased first cell contains one
of a fixed indicator vocabulary; an empty row counts as a header. -/
def header_indicators : List String :=
  ["DATE", "VILLAGE", "TALUKA", "DISTRICT", "MANTRI",
   "SABHASAD", "CONTACT", "TOTAL", "SR", "NO", "NAME"]

/-- `_is_header_row`. -/
def is_header_row (r : Row) : Bool :=
  match r.cells with
  | [] => true
  | c :: _ =>
    let firstValue := if c == Cell.na then "" else strOfCell c
    header_indicators.any (fun ind => occursIn ind (strUpper firstValue))

/-- The row-skip test shared by the sheet processors (e.g. lines 101-102):
header rows and rows whose first cell is null are skipped. The `IndexError`
of `row.iloc[0]` on a zero-width row is caught by the per-row handler, which
also skips the row. -/
def row_skip (r : Row) : Bool :=
  match r.cells with
  | [] => true
  | c :: _ => is_header_row r || c == Cell.na

/-- `_extract_location_from_name` gazetteer (lines 352-361):
token, village, taluka. -/
def locations : List (String × String × String) :=
  [("AMIYAD", "Amiyad", ""), ("AMVAD", "Amvad", ""),
   ("ANKALAV", "", "Ankalav"), ("PETLAD", "", "Petlad"),
   ("BORSAD", "", "Borsad"), ("VADODARA", "", "Vadodara"),
   ("ANAND", "", "Anand"), ("NADIAD", "", "Nadiad")]

/-- `_extract_location_from_name` (lines 348-372): first gazetteer token
occurring in the uppercased name wins. -/
def extract_location_from_name (name : String) : String × String :=
  match locations.find? (fun l => occursIn l.1 (strUpper name)) with
  | some l => (l.2.1, l.2.2)
  | none => ("", "")

/-! ## The persistence gateway

`database.py` (class `DatabaseManager`) is not among the provided sources;
the store and its operations are modelled from the spec (§4.5, §6, §9). -/

/-- A row of the `customers` table (spec §6 schema). -/
structure Customer where
  customer_id : Nat
  customer_code : String
  name : String
  mobile : String
  village : String
  taluka : String
  district : String
deriving DecidableEq, Repr

/-- A row of the `sales` table (fields the ingestion core writes). -/
structure SaleRec where
  sale_id : Nat
  invoice_no : String
  customer_id : Nat
deriving DecidableEq, Repr

/-- A row of the `sale_items` table (fields the ingestion core writes). -/
structure SaleItemRec where
  item_id : Nat
  sale_id : Nat
  product_id : Nat
  quantity : Rat
  rate : Rat
deriving DecidableEq, Repr

/-- A row of the `distributors` table (fields the ingestion core writes). -/
structure DistRec where
  name : String
  village : String
  taluka : String
  district : String
  mantri_name : String
  mantri_mobile : String
  sabhasad_count : Int
  contact_in_group : Int
deriving DecidableEq, Repr

/-- The relational store. Rows are kept in insertion order (SQLite rowid
order, the order `SELECT` returns them in). -/
structure Store where
  customers : List Customer
  sales : List SaleRec
  sale_items : List SaleItemRec
  distributors : List DistRec
deriving DecidableEq, Repr

/-- The empty store. -/
def Store.empty : Store := ⟨[], [], [], []⟩

/-- Modelled from the spec: `DatabaseManager.add_customer` (`database.py`,
not in the sources). Spec §4.5 "on miss, synthesize a time-based code and
insert a new record"; §6 schema `customers(customer_id PK, customer_code,
name, mobile, village, taluka, district, ...)` with no uniqueness constraint
on `(name, mobile)` (§9 notes that constraint as missing). It inserts one
new row with a fresh surrogate id. -/
def add_customer (st : Store) (name mobile village taluka district code : String) : Store :=
  { st with customers := st.customers ++
      [{ customer_id := st.customers.length + 1, customer_code := code,
         name := name, mobile := mobile, village := village,
         taluka := taluka, district := district }] }

/-- Modelled from the spec: `DatabaseManager.add_sale` (`database.py`, not
in the sources). Spec §6 schema: one `sales` row plus one `sale_items` row
per item, with fresh surrogate ids. -/
def add_sale (st : Store) (invoiceNo : String) (customerId : Nat)
    (items : List (Nat × Rat × Rat)) : Store :=
  let sid := st.sales.length + 1
  let base := st.sale_items.length
  { st with
    sales := st.sales ++ [{ sale_id := sid, invoice_no := invoiceNo, customer_id := customerId }],
    sale_items := st.sale_items ++
      ((List.range items.length).zip items).map
        (fun p => { item_id := base + p.1 + 1, sale_id := sid,
                    product_id := p.2.1, quantity := p.2.2.1, rate := p.2.2.2 }) }

/-- `SELECT customer_id FROM customers WHERE name = ? AND mobile = ?`,
taking the first returned row (`result[0][0]`, rowid order). -/
def find_customer (st : Store) (name mobile : String) : Option Nat :=
  (st.customers.find? (fun c => c.name == name && c.mobile == mobile)).map (·.customer_id)

/-- `SELECT customer_id FROM customers WHERE customer_code = ?`, taking the
first returned row. -/
def find_code (st : Store) (code : String) : Option Nat :=
  (st.customers.find? (fun c => c.customer_code == code)).map (·.customer_id)

/-- Python truthiness of the optional integer ids the guards test
(`if customer_id and product_id`): `None` and `0` are falsy. -/
def pyTruthy (o : Option Nat) : Bool :=
  match o with
  | none => false
  | some n => n != 0

/-! ## Identity resolution (`data_processor.py`, `_get_or_create_customer`) -/

/-- `_get_or_create_customer` (lines 316-341): look up `(name, mobile)`;
reuse the id on hit; on miss insert a new customer under a time-based code
and re-read its id by that code. The time-based code is supplied as
`codeFn k` where `k` counts the creations performed so far (the source
formats `datetime.now()`). -/
def get_or_create_customer (codeFn : Nat → String) (st : Store) (k : Nat)
    (name mobile village taluka district : String) : Option Nat × Store × Nat :=
  match find_customer st name mobile with
  | some cid => (some cid, st, k)
  | none =>
    let code := codeFn k
    let st' := add_customer st name mobile village taluka district code
    (find_code st' code, st', k + 1)

/-- `_get_product_id` (lines 343-346): exact lookup of the uppercased,
stripped product name in the name-to-id mapping built from the `products`
table; `None` when absent. -/
def get_product_id (pm : List (String × Nat)) (productName : String) : Option Nat :=
  (pm.find? (fun p => p.1 == strTrim (strUpper productName))).map (·.2)

/-! ## Interactive sales-sheet processing (`process_sales_sheet`) -/

/-- Line 105: `str(row.iloc[0])`; a zero-width row would fall back to a
timestamped default (never reached after `row_skip`). -/
def row_invoice_no (defInv : String) (r : Row) : String :=
  ((r.cells.get? 0).map strOfCell).getD defInv

/-- Line 106. -/
def row_customer_name (r : Row) : String :=
  ((r.cells.get? 1).map strOfCell).getD "Unknown Customer"

/-- Line 107. -/
def row_product_name (r : Row) : String :=
  ((r.cells.get? 2).map strOfCell).getD "Unknown Product"

/-- Line 108. -/
def row_quantity (r : Row) : Rat :=
  ((r.cells.get? 3).map safe_float).getD 0

/-- Line 109. -/
def row_amount (r : Row) : Rat :=
  ((r.cells.get? 4).map safe_float).getD 0

/-- Lines 117-127: write the sale (with its single item, rate =
amount/quantity) only when customer id and product id are truthy and the
quantity is positive; returns the store and whether a sale was written. -/
def maybe_add_sale (pm : List (String × Nat)) (defInv : String) (st : Store)
    (r : Row) (cid? : Option Nat) : Store × Bool :=
  if pyTruthy cid? && pyTruthy (get_product_id pm (row_product_name r)) &&
      decide (0 < row_quantity r) then
    match cid?, get_product_id pm (row_product_name r) with
    | some cid, some pid =>
      (add_sale st (row_invoice_no defInv r) cid
        [(pid, row_quantity r, row_amount r / row_quantity r)], true)
    | _, _ => (st, false)
  else (st, false)

/-- State threaded through the sales-sheet row loop: the store, the number
of customer creations so far (indexing the time-based codes), the number of
written sales, and the customer id each processed row resolved to. -/
structure SState where
  store : Store
  creations : Nat
  processed : Nat
  resolutions : List (Option Nat)
deriving Repr

/-- One iteration of the `process_sales_sheet` row loop (lines 98-131):
skip header/blank rows; resolve-or-create the customer (mobile `""`); write
the sale when the guard passes. -/
def sales_row_step (pm : List (String × Nat)) (codeFn : Nat → String) (defInv : String)
    (s : SState) (r : Row) : SState :=
  if row_skip r then s
  else
    let res := get_or_create_customer codeFn s.store s.creations (row_customer_name r) "" "" "" ""
    let wr := maybe_add_sale pm defInv res.2.1 r res.1
    { store := wr.1, creations := res.2.2,
      processed := s.processed + (if wr.2 then 1 else 0),
      resolutions := s.resolutions ++ [res.1] }

/-- The `process_sales_sheet` row loop from a given store and creation
count. -/
def run_sales_rows (pm : List (String × Nat)) (codeFn : Nat → String) (defInv : String)
    (st : Store) (k : Nat) (rows : List Row) : SState :=
  rows.foldl (sales_row_step pm codeFn defInv) ⟨st, k, 0, []⟩

/-! ## Interactive customer-sheet processing (`process_customer_sheet`) -/

/-- One iteration of the `process_customer_sheet` row loop (lines 145-175):
every non-skipped row is appended to the `customers` table via
`add_customer` — there is no lookup against existing rows. -/
def customer_row_step (st : Store) (r : Row) : Store :=
  if row_skip r then st
  else
    let code := ((r.cells.get? 0).map strOfCell).getD "CUST_DEFAULT"
    let name := ((r.cells.get? 1).map strOfCell).getD "Unknown"
    let mobile := ((r.cells.get? 2).map strOfCell).getD ""
    let vt := extract_location_from_name name
    let village :=
      match r.cells.get? 3 with
      | some c =>
        let villageCol := strOfCell c
        if villageCol ≠ "" ∧
            !(["VILLAGE", "CITY", "TOWN"].any (fun x => occursIn x (strUpper villageCol))) then
          villageCol
        else vt.1
      | none => vt.1
    let taluka :=
      match r.cells.get? 4 with
      | some c =>
        let talukaCol := strOfCell c
        if talukaCol ≠ "" ∧
            !(["TALUKA", "DISTRICT"].any (fun x => occursIn x (strUpper talukaCol))) then
          talukaCol
        else vt.2
      | none => vt.2
    add_customer st name mobile village taluka "" code

/-- The `process_customer_sheet` row loop; also reports whether at least one
row was processed. -/
def run_customer_rows (st : Store) (rows : List Row) : Store × Bool :=
  (rows.foldl customer_row_step st, rows.any (fun r => !row_skip r))

/-! ## Interactive distributor-sheet processing (`process_distributor_sheet`) -/

/-- `_extract_distributor_name` (lines 245-257). -/
def extract_distributor_name (r : Row) : String :=
  let village := safe_get r "VILLAGE" 1
  let taluka := safe_get r "TALUKA" 2
  if village ≠ "" ∧ taluka ≠ "" then village ++ " - " ++ taluka
  else if village ≠ "" then village
  else if taluka ≠ "" then taluka
  else "Unknown Distributor"

/-- One iteration of the `process_distributor_sheet` row loop (lines
193-236); rows missing village or taluka are rejected; `INSERT OR REPLACE`
into a table keyed by a fresh autoincrement id is a plain append. An
`OverflowError` escaping `_safe_get_int` (lines 210-211) is caught by the
per-row `except Exception` (line 234), which skips the row. Returns the
store and whether the row was written. -/
def distributor_row_step (st : Store) (r : Row) : Store × Bool :=
  if row_skip r then (st, false)
  else
    let name0 := extract_distributor_name r
    let village := safe_get r "VILLAGE" 1
    let taluka := safe_get r "TALUKA" 2
    let district := safe_get r "DISTRICT" 3
    let mantriName := safe_get r "MANTRI_NAME" 4
    let mantriMobile := safe_get r "MANTRI_MOBILE" 5
    match safe_get_int r "SABHASAD" 6, safe_get_int r "CONTACT_IN_GROUP" 7 with
    | .ok sabhasadCount, .ok contactInGroup =>
      if village = "" ∨ taluka = "" then (st, false)
      else
        let name := if name0 = "" then village ++ " - " ++ taluka else name0
        ({ st with distributors := st.distributors ++
            [{ name := name, village := village, taluka := taluka, district := district,
               mantri_name := mantriName, mantri_mobile := mantriMobile,
               sabhasad_count := sabhasadCount, contact_in_group := contactInGroup }] }, true)
    | _, _ => (st, false)

/-- The `process_distributor_sheet` row loop. -/
def run_distributor_rows (st : Store) (rows : List Row) : Store × Bool :=
  rows.foldl (fun acc r =>
    let step := distributor_row_step acc.1 r
    (step.1, acc.2 || step.2)) (st, false)

/-! ## `process_excel_file` (lines 26-60) -/

/-- State threaded through the sheet loop of `process_excel_file`. -/
structure FState where
  store : Store
  creations : Nat
  processedSheets : Nat
deriving Repr

/-- One iteration of the sheet loop: clean the frame, classify it in the
order sales / customer / distributor, and run the matching processor. -/
def file_sheet_step (pm : List (String × Nat)) (codeFn : Nat → String) (defInv : String)
    (s : FState) (df : DataFrame) : FState :=
  let cdf := clean_dataframe df
  let rows := dfRows cdf
  if is_sales_sheet cdf then
    let r := run_sales_rows pm codeFn defInv s.store s.creations rows
    { store := r.store, creations := r.creations,
      processedSheets := s.processedSheets + (if 0 < r.processed then 1 else 0) }
  else if is_customer_sheet cdf then
    let r := run_customer_rows s.store rows
    { s with store := r.1,
             processedSheets := s.processedSheets + (if r.2 then 1 else 0) }
  else if is_distributor_sheet cdf then
    let r := run_distributor_rows s.store rows
    { s with store := r.1,
             processedSheets := s.processedSheets + (if r.2 then 1 else 0) }
  else s

/-- `process_excel_file` on an already-opened workbook (a list of sheets):
returns the updated store and `processed_sheets > 0`. -/
def process_excel_file (pm : List (String × Nat)) (codeFn : Nat → String) (defInv : String)
    (st : Store) (sheets : List DataFrame) : Store × Bool :=
  let f := sheets.foldl (file_sheet_step pm codeFn defInv) ⟨st, 0, 0⟩
  (f.store, decide (0 < f.processedSheets))

/-! ## Batch mode: the fixed product catalog (`experiment.py` lines 26-35) -/

/-- Catalog entry payload: capacity (litres), packing type, category,
standard rate. -/
structure ProdInfo where
  capacity : Rat
  ptype : String
  category : String
  rate : Rat
deriving DecidableEq, Repr

/-- `self.product_mapping`: the fixed, closed product catalog, in insertion
order. -/
def product_mapping : List (String × ProdInfo) :=
  [("1 LTR PLASTIC JAR", ⟨1, "PLASTIC_JAR", "Regular", 95⟩),
   ("2 LTR PLASTIC JAR", ⟨2, "PLASTIC_JAR", "Regular", 185⟩),
   ("5 LTR PLASTIC JAR", ⟨5, "PLASTIC_JAR", "Regular", 460⟩),
   ("5 LTR STEEL BARNI", ⟨5, "STEEL_BARNI", "Premium", 680⟩),
   ("10 LTR STEEL BARNI", ⟨10, "STEEL_BARNI", "Premium", 1300⟩),
   ("20 LTR STEEL BARNI", ⟨20, "STEEL_BARNI", "Premium", 2950⟩),
   ("20 LTR PLASTIC CAN", ⟨20, "PLASTIC_CAN", "Regular", 2400⟩),
   ("1 LTR PET BOTTLE", ⟨1, "PET_BOTTLE", "Regular", 85⟩)]

/-- The product id assigned to catalog position `i`:
`f"PROD_{index}"` (`get_product_info` line 486, `create_products_dataframe`
line 497). -/
def mkProdId (i : Nat) : String :=
  "PROD_" ++ natStr i

/-- `get_product_info` (lines 478-489), generalized over the catalog tail
with the running index: first entry whose name occurs (case-insensitively)
in the packing text wins, yielding its positional id and standard rate. -/
def product_lookup (packingText : String) : Nat → List (String × ProdInfo) → Option (String × Rat)
  | _, [] => none
  | i, (name, info) :: rest =>
    if occursIn (strUpper name) (strUpper packingText) then some (mkProdId i, info.rate)
    else product_lookup packingText (i + 1) rest

/-- `get_product_info` on the fixed catalog. -/
def get_product_info (packingText : String) : Option (String × Rat) :=
  product_lookup packingText 0 product_mapping

/-- The `(product_name, product_id)` pairs of the catalog starting at
position `i` — the rows of `create_products_dataframe` (lines 491-506)
restricted to the columns the linker reads. -/
def enum_prod_ids : Nat → List (String × ProdInfo) → List (String × String)
  | _, [] => []
  | i, (name, _) :: rest => (name, mkProdId i) :: enum_prod_ids (i + 1) rest

/-- `self.product_name_to_id`: built once from the products table
(`process_all_files` lines 110-113). -/
def product_name_to_id : List (String × String) :=
  enum_prod_ids 0 product_mapping

/-! ## Batch mode: sale-item candidates and relationship linking -/

/-- A `sale_items` candidate record as built by `process_sales_data`
(lines 365-373) and later stamped by `establish_relationships`. The
invoice is `Option` because no sale row may have been opened yet
(`current_invoice = None`). -/
structure ItemRec where
  invoice_no : Option String
  product_name : String
  quantity : Rat
  rate : Rat
  amount : Rat
  source_file : String
  source_sheet : String
  sale_id : Option Nat := none
  product_id : Option String := none
deriving DecidableEq, Repr

/-- The sale-item pass of `establish_relationships` (lines 189-199): stamp
the sale id from the invoice map and the product id from the
`product_name_to_id` map; both by exact key match, leaving the field
untouched on a miss. -/
def link_item (invoiceMap : List (String × Nat)) (productMap : List (String × String))
    (it : ItemRec) : ItemRec :=
  let it1 :=
    match invoiceMap.find? (fun p => it.invoice_no == some p.1) with
    | some p => { it with sale_id := some p.2 }
    | none => it
  match productMap.find? (fun p => p.1 == it1.product_name) with
  | some p => { it1 with product_id := some p.2 }
  | none => it1

/-- The quantity/rate/amount column scan for a detail line
(`process_sales_data` lines 349-360): last matching non-null column wins;
quantity starts at 0, rate at the catalog rate, amount at 0. Numeric cells
carry their value; the scan reads the numeric payload (a text cell in one
of these columns would make the later comparisons raise in the source,
aborting the sheet). -/
def scan_qra (cols : List String) (cells : List Cell) (initRate : Rat) : Rat × Rat × Rat :=
  (cols.zip cells).foldl
    (fun acc p =>
      let cu := strUpper p.1
      let numVal : Rat := match p.2 with | .num v => v | _ => 0
      if (occursIn "QTY" cu || occursIn "QTN" cu) && p.2 != Cell.na then
        (numVal, acc.2.1, acc.2.2)
      else if occursIn "RATE" cu && p.2 != Cell.na then
        (acc.1, numVal, acc.2.2)
      else if occursIn "AMT" cu && p.2 != Cell.na && !occursIn "FINAL" cu then
        (acc.1, acc.2.1, numVal)
      else acc)
    (0, initRate, 0)

/-- Building the item record for a detail line whose packing text matched
the catalog (`process_sales_data` lines 343-374): derive the quantity as
amount/rate when it is 0 and both amount and rate are positive; record the
amount as found when positive, else as quantity × rate. -/
def detail_item (fileName sheetName : String) (invoice : Option String)
    (packing : String) (q r a : Rat) : ItemRec :=
  let q' := if q = 0 ∧ 0 < a ∧ 0 < r then a / r else q
  { invoice_no := invoice,
    product_name := packing,
    quantity := q',
    rate := r,
    amount := if 0 < a then a else q' * r,
    source_file := fileName,
    source_sheet := sheetName }

/-- The full detail-line processing for one row: scan the quantity/rate/
amount columns (the rate defaulting to the matched catalog entry's standard
rate) and build the item record. -/
def process_detail_line (fileName sheetName : String) (invoice : Option String)
    (packing : String) (catalogRate : Rat) (cols : List String) (cells : List Cell) : ItemRec :=
  let qra := scan_qra cols cells catalogRate
  detail_item fileName sheetName invoice packing qra.1 qra.2.1 qra.2.2

/-- Synthesized invoice number for a sale row with no invoice cell
(`process_sales_data` line 261): `f"INV_{file_name}_{sheet_name}_{sale_counter}"`,
where `sale_counter` is the per-record ordinal within the sheet. -/
def synth_invoice (fileName sheetName : String) (saleCounter : Nat) : String :=
  "INV_" ++ fileName ++ "_" ++ sheetName ++ "_" ++ natStr saleCounter

/-! ## Fatal-store-error behaviour of `process_excel_file`

The store may be unreachable; every `DatabaseManager` call then raises.
`Except` models raised exceptions, and each `try/except` of the source is an
explicit `match` on it. With the binary health model an operation either
fails before mutating the store or succeeds, so the handler branches can
return the pre-call store. -/

/-- Health of the persistence gateway. -/
inductive DbHealth where
  | healthy
  | unreachable
deriving DecidableEq, Repr

/-- A store query that raises when the gateway is unreachable. -/
def db_find_customer (db : DbHealth) (st : Store) (name mobile : String) :
    Except String (Option Nat) :=
  match db with
  | .healthy => .ok (find_customer st name mobile)
  | .unreachable => .error "database unreachable"

/-- A store insert that raises when the gateway is unreachable. -/
def db_add_customer (db : DbHealth) (st : Store)
    (name mobile village taluka district code : String) : Except String Store :=
  match db with
  | .healthy => .ok (add_customer st name mobile village taluka district code)
  | .unreachable => .error "database unreachable"

/-- A store insert that raises when the gateway is unreachable. -/
def db_add_sale (db : DbHealth) (st : Store) (invoiceNo : String) (customerId : Nat)
    (items : List (Nat × Rat × Rat)) : Except String Store :=
  match db with
  | .healthy => .ok (add_sale st invoiceNo customerId items)
  | .unreachable => .error "database unreachable"

/-- `_get_or_create_customer` with its own `try/except` (lines 318-341):
any store error is caught and turned into `None`, the store left as it was
before the failing call. -/
def get_or_create_customer_exc (db : DbHealth) (codeFn : Nat → String) (st : Store) (k : Nat)
    (name mobile village taluka district : String) : Option Nat × Store × Nat :=
  let attempt : Except String (Option Nat × Store × Nat) := do
    let hit ← db_find_customer db st name mobile
    match hit with
    | some cid => pure (some cid, st, k)
    | none => do
      let code := codeFn k
      let st' ← db_add_customer db st name mobile village taluka district code
      pure (find_code st' code, st', k + 1)
  match attempt with
  | .ok r => r
  | .error _ => (none, st, k)

/-- One `process_sales_sheet` row iteration with the per-row `try/except`
(lines 99-131): a store error from `add_sale` is caught and the row
skipped. -/
def sales_row_step_exc (db : DbHealth) (pm : List (String × Nat)) (codeFn : Nat → String)
    (defInv : String) (s : SState) (r : Row) : SState :=
  if row_skip r then s
  else
    let res := get_or_create_customer_exc db codeFn s.store s.creations
      (row_customer_name r) "" "" "" ""
    let pid? := get_product_id pm (row_product_name r)
    let quantity := row_quantity r
    if pyTruthy res.1 && pyTruthy pid? && decide (0 < quantity) then
      match res.1, pid? with
      | some cid, some pid =>
        match db_add_sale db res.2.1 (row_invoice_no defInv r) cid
            [(pid, quantity, row_amount r / quantity)] with
        | .ok st' =>
          { store := st', creations := res.2.2, processed := s.processed + 1,
            resolutions := s.resolutions ++ [res.1] }
        | .error _ =>
          { store := res.2.1, creations := res.2.2, processed := s.processed,
            resolutions := s.resolutions ++ [res.1] }
      | _, _ =>
        { store := res.2.1, creations := res.2.2, processed := s.processed,
          resolutions := s.resolutions ++ [res.1] }
    else
      { store := res.2.1, creations := res.2.2, processed := s.processed,
        resolutions := s.resolutions ++ [res.1] }

/-- One `process_customer_sheet` row iteration with the per-row
`try/except`: a store error from `add_customer` is caught and the row
skipped. -/
def customer_row_step_exc (db : DbHealth) (st : Store) (r : Row) : Store × Bool :=
  if row_skip r then (st, false)
  else
    match db with
    | .healthy => (customer_row_step st r, true)
    | .unreachable => (st, false)

/-- One customer-sheet fold iteration over a fallible store. -/
def customer_fold_step_exc (db : DbHealth) (acc : Store × Bool) (row : Row) : Store × Bool :=
  let step := customer_row_step_exc db acc.1 row
  (step.1, acc.2 || step.2)

/-- `process_excel_file`'s sheet loop over a fallible store; sheet-level
errors are caught inside the sheet processors, so each sheet contributes
normally. -/
def file_sheet_step_exc (db : DbHealth) (pm : List (String × Nat)) (codeFn : Nat → String)
    (defInv : String) (s : FState) (df : DataFrame) : FState :=
  let cdf := clean_dataframe df
  let rows := dfRows cdf
  if is_sales_sheet cdf then
    let r := rows.foldl (sales_row_step_exc db pm codeFn defInv) ⟨s.store, s.creations, 0, []⟩
    { store := r.store, creations := r.creations,
      processedSheets := s.processedSheets + (if 0 < r.processed then 1 else 0) }
  else if is_customer_sheet cdf then
    let r := rows.foldl (customer_fold_step_exc db) (s.store, false)
    { s with store := r.1,
             processedSheets := s.processedSheets + (if r.2 then 1 else 0) }
  else if is_distributor_sheet cdf then
    match db with
    | .healthy =>
      let r := run_distributor_rows s.store rows
      { s with store := r.1,
               processedSheets := s.processedSheets + (if r.2 then 1 else 0) }
    | .unreachable => s
  else s

/-- `process_excel_file` (lines 26-60) over a fallible store. The whole
body sits in `try: ... except Exception: return False`; since every store
error is already caught at row level, the outer handler maps any residual
error to the normal value `False`. The result is an `Except`: an `.error`
would model the exception propagating to the caller. -/
def process_excel_file_exc (db : DbHealth) (pm : List (String × Nat)) (codeFn : Nat → String)
    (defInv : String) (st : Store) (sheets : List DataFrame) : Except String (Store × Bool) :=
  let body : Except String (Store × Bool) :=
    let f := sheets.foldl (file_sheet_step_exc db pm codeFn defInv) ⟨st, 0, 0⟩
    .ok (f.store, decide (0 < f.processedSheets))
  match body with
  | .ok r => .ok r
  | .error _ => .ok (st, false)

/-! ## Specification-side auxiliary definitions -/

/-- The customer id each non-skipped row of a sales sheet resolves to when
looked up in a fixed store `st` (the shape re-ingestion resolutions take). -/
def res_map (st : Store) (rows : List Row) : List (Option Nat) :=
  (rows.filter (fun r => !row_skip r)).map
    (fun r => find_customer st (row_customer_name r) "")

/-- The synthesized time-based customer codes are fresh: pairwise distinct
and absent from the store the run starts from (distinct creation
timestamps). -/
def fresh_codes (codeFn : Nat → String) (st : Store) : Prop :=
  Function.Injective codeFn ∧ ∀ k, ∀ c ∈ st.customers, c.customer_code ≠ codeFn k

/-- Invariant of a sales-sheet run started from `st0`: the store's customer
table is `st0`'s plus rows created by this run, each carrying one of the
first `s.creations` synthesized codes. -/
def created_by (codeFn : Nat → String) (st0 : Store) (s : SState) : Prop :=
  ∃ ext, s.store.customers = st0.customers ++ ext ∧
    ∀ c ∈ ext, ∃ j, j < s.creations ∧ c.customer_code = codeFn j

/-! ## Concrete fixtures used by counterexamples and witnesses -/

/-- A deterministic stand-in for the time-based customer codes. -/
def codeFn0 (k : Nat) : String := "CUST_" ++ natStr k

/-- A product mapping with the catalog entry the fixtures use. -/
def pm0 : List (String × Nat) := [("5 LTR STEEL BARNI", 1)]

/-- A customer worksheet: one data row `C001 / Bob / 99`. -/
def dfC : DataFrame :=
  ⟨["CUSTOMER CODE", "NAME", "MOBILE"], [[Cell.s "C001", Cell.s "Bob", Cell.s "99"]]⟩

/-- A sales worksheet: one data row. -/
def dfS : DataFrame :=
  ⟨["INVOICE", "CUSTOMER", "PRODUCT", "QTY", "AMT"],
   [[Cell.s "I1", Cell.s "Alice", Cell.s "5 LTR STEEL BARNI", Cell.num 2, Cell.num 1360]]⟩

/-- A sales row whose product text matches no catalog entry. -/
def rowNoProd : Row :=
  ⟨["INVOICE", "CUSTOMER", "PRODUCT", "QTY", "AMT"],
   [Cell.s "I1", Cell.s "Alice", Cell.s "XYZ", Cell.num 2, Cell.num 100]⟩

/-- A sales row passing the full write guard. -/
def rowOk : Row :=
  ⟨["INVOICE", "CUSTOMER", "PRODUCT", "QTY", "AMT"],
   [Cell.s "I1", Cell.s "Alice", Cell.s "5 LTR STEEL BARNI", Cell.num 2, Cell.num 1360]⟩

/-- A sale-item candidate whose free text strictly contains a catalog name. -/
def itemSubstr : ItemRec :=
  { invoice_no := none, product_name := "PREMIUM 5 LTR STEEL BARNI PACK",
    quantity := 1, rate := 680, amount := 680,
    source_file := "f.xlsx", source_sheet := "S1" }

/-- The spec's unmatched sale-item candidate. -/
def itemUnknown : ItemRec :=
  { invoice_no := none, product_name := "Unknown Jumbo Pack",
    quantity := 1, rate := 0, amount := 0,
    source_file := "f.xlsx", source_sheet := "S1" }

/-!
# Theorems

Generic helper lemmas first, then, per claim of the specification, its
theorem together with 0its counterexample and witness where applicable.
-/

/-- `find?` over a grown list still returns the hit found in the prefix. -/
theorem find?_mono {α : Type} {p : α → Bool} {l l' : List α} (h : l <+: l') {x : α}
    (hf : l.find? p = some x) : l'.find? p = some x := by
  obtain ⟨t, rfl⟩ := h
  simp [List.find?_append, hf]

/-- `find_customer` reads only the customer table. -/
theorem find_customer_congr {st st' : Store} (h : st.customers = st'.customers)
    (name mobile : String) : find_customer st name mobile = find_customer st' name mobile := by
  unfold find_customer
  rw [h]

/-- Customer-table monotonicity transfers `find_customer` hits. -/
theorem find_customer_mono {st st' : Store} (h : st.customers <+: st'.customers)
    {name mobile : String} {cid : Nat} (hf : find_customer st name mobile = some cid) :
    find_customer st' name mobile = some cid := by
  unfold find_customer at hf ⊢
  cases hfind : st.customers.find? (fun c => c.name == name && c.mobile == mobile) with
  | none => rw [hfind] at hf; simp at hf
  | some c =>
    rw [hfind] at hf
    rw [find?_mono h hfind]
    exact hf

/-! ## C2 — file-mode classifier: keyword sets in priority order -/

/-- C2 (counterexample): a worksheet with a sales keyword in its column
labels and no keyword of the other two sets is nevertheless not classified
`sales` when it has no data rows — `identify_sheet_type` answers `empty`
first. The claim as stated (every worksheet with a keyword of exactly one
set gets that set's type) is therefore false. -/
theorem identify_sheet_type_headers_only_sheet :
    anyKeyword sales_keywords (columnsCorpus ⟨["INV"], []⟩) = true ∧
    anyKeyword customer_keywords (columnsCorpus ⟨["INV"], []⟩) = false ∧
    anyKeyword distributor_keywords (columnsCorpus ⟨["INV"], []⟩) = false ∧
    identify_sheet_type ⟨["INV"], []⟩ ≠ "sales" := by
  refine ⟨by decide, by decide, by decide, by decide⟩

/-- C2 (amended): on a worksheet that is not pandas-empty, the first keyword
set with at least one match in the concatenated uppercased column labels
wins, in the fixed priority order sales, customers, distributors; in
particular a sheet matching exactly one set is classified as that set's
entity type. -/
theorem identify_sheet_type_priority (df : DataFrame) (hne : dfEmpty df = false) :
    (anyKeyword sales_keywords (columnsCorpus df) = true →
      identify_sheet_type df = "sales") ∧
    (anyKeyword sales_keywords (columnsCorpus df) = false →
      anyKeyword customer_keywords (columnsCorpus df) = true →
      identify_sheet_type df = "customers") ∧
    (anyKeyword sales_keywords (columnsCorpus df) = false →
      anyKeyword customer_keywords (columnsCorpus df) = false →
      anyKeyword distributor_keywords (columnsCorpus df) = true →
      identify_sheet_type df = "distributors") := by
  unfold identify_sheet_type
  rw [hne]
  refine ⟨fun h1 => ?_, fun h1 h2 => ?_, fun h1 h2 h3 => ?_⟩
  · simp [h1]
  · simp [h1, h2]
  · simp [h1, h2, h3]

/-- C2 (witness): a one-column, one-row sheet labelled `INV NO` classifies
as `sales`. -/
theorem identify_sheet_type_priority_witness :
    identify_sheet_type ⟨["INV NO"], [[Cell.s "x"]]⟩ = "sales" :=
  (identify_sheet_type_priority ⟨["INV NO"], [[Cell.s "x"]]⟩ (by decide)).1 (by decide)

/-! ## C3 — interactive classifier thresholds -/

/-- C3 (counterexample): a cleaned sheet with exactly 2 column labels
matching the sales keyword set is not processed as a sales sheet —
`_is_sales_sheet` requires at least 3 matching labels, not 2 as claimed
(the sheet here matches no other set either, so it is skipped). -/
theorem interactive_two_sales_columns_not_sales :
    count_matching ["INVOICE", "CUSTOMER", "PRODUCT", "QUANTITY", "AMOUNT"]
        (DataFrame.mk ["INVOICE", "QUANTITY"] [[Cell.s "I1", Cell.num 2]]).cols = 2 ∧
    classify_interactive ⟨["INVOICE", "QUANTITY"], [[Cell.s "I1", Cell.num 2]]⟩ ≠ .sales := by
  refine ⟨by decide, by decide⟩

/-- C3 (amended): interactive classification checks the sets in the order
sales, customers, distributors, but the sales check requires at least **3**
matching column labels, while the customer and distributor checks require
at least 2. -/
theorem classify_interactive_thresholds (df : DataFrame) :
    (3 ≤ count_matching ["INVOICE", "CUSTOMER", "PRODUCT", "QUANTITY", "AMOUNT"] df.cols →
      classify_interactive df = .sales) ∧
    (count_matching ["INVOICE", "CUSTOMER", "PRODUCT", "QUANTITY", "AMOUNT"] df.cols < 3 →
      2 ≤ count_matching ["CUSTOMER", "NAME", "MOBILE", "VILLAGE"] df.cols →
      classify_interactive df = .customers) ∧
    (count_matching ["INVOICE", "CUSTOMER", "PRODUCT", "QUANTITY", "AMOUNT"] df.cols < 3 →
      count_matching ["CUSTOMER", "NAME", "MOBILE", "VILLAGE"] df.cols < 2 →
      2 ≤ count_matching ["DISTRIBUTOR", "MANTRI", "SABHASAD"] df.cols →
      classify_interactive df = .distributors) := by
  unfold classify_interactive is_sales_sheet is_customer_sheet is_distributor_sheet
  refine ⟨fun h1 => ?_, fun h1 h2 => ?_, fun h1 h2 h3 => ?_⟩ <;>
    simp only [decide_eq_true_eq]
  · rw [if_pos h1]
  · rw [if_neg (by omega), if_pos h2]
  · rw [if_neg (by omega), if_neg (by omega), if_pos h3]

/-- C3 (witness): a sheet with 3 sales-matching labels is processed as a
sales sheet. -/
theorem classify_interactive_thresholds_witness :
    classify_interactive ⟨["INVOICE", "CUSTOMER", "QUANTITY"], []⟩ = .sales :=
  (classify_interactive_thresholds ⟨["INVOICE", "CUSTOMER", "QUANTITY"], []⟩).1 (by decide)

/-! ## C8 — empty worksheets -/

/-- C8 (counterexample): a worksheet whose cells are all null — zero
non-null cells remain after `_clean_dataframe` drops blank rows and columns
— is *not* classified `empty`: `identify_sheet_type` receives the uncleaned
frame, which is not pandas-empty, and answers `unknown` via the keyword
scan. -/
theorem all_null_sheet_not_empty :
    (clean_dataframe ⟨["A"], [[Cell.na]]⟩).rows = [] ∧
    identify_sheet_type ⟨["A"], [[Cell.na]]⟩ = "unknown" := by
  refine ⟨by decide, by decide⟩

/-- C8 (amended): the classifier returns `empty`, before any keyword
evaluation, exactly for pandas-empty worksheets — zero rows or zero columns
— and such sheets are dispatched to no row extractor. -/
theorem identify_sheet_type_empty (df : DataFrame) (h : dfEmpty df = true) :
    identify_sheet_type df = "empty" ∧ dispatch_sheet df = .skipped := by
  have h1 : identify_sheet_type df = "empty" := by
    unfold identify_sheet_type
    rw [h]
    simp
  refine ⟨h1, ?_⟩
  unfold dispatch_sheet
  rw [h1]
  decide

/-- C8 (witness): a sheet with column labels but no rows is `empty` and
skipped. -/
theorem identify_sheet_type_empty_witness :
    identify_sheet_type ⟨["A"], []⟩ = "empty" ∧ dispatch_sheet ⟨["A"], []⟩ = .skipped :=
  identify_sheet_type_empty ⟨["A"], []⟩ (by decide)

/-! ## C4 — field extraction and the uncaught `OverflowError` -/

/-- An accepted float literal is never the empty or all-whitespace string. -/
theorem parseFloat_some_ne {x : String} {pf : PyFloat} (h : parseFloat x = some pf) :
    x ≠ "" ∧ strTrim x ≠ "" := by
  constructor
  · rintro rfl
    have h0 : parseFloat "" = none := by decide
    rw [h0] at h
    simp at h
  · intro htrim
    unfold parseFloat at h
    rw [htrim] at h
    have h0 : parseFloatCore ("" : String).data = none := by decide
    rw [h0] at h
    simp at h

/-- The degraded-defaults behaviour on the paths the handlers do cover: an
unresolvable or null cell yields `""` from `_safe_get` and `0` from
`_safe_get_int`; text whose `float()` parse raises `ValueError` yields `0`,
as does a NaN parse (`int(nan)` raises `ValueError`, which is caught);
finite parses are truncated toward zero; `_safe_float` yields `0.0` on
null or unparseable values. Only the infinite-parse path escapes, per
`safe_get_int_overflow_raises`. -/
theorem safe_extraction_defaults (r : Row) (columnName : String) (defaultIndex : Nat) :
    (resolve_cell r columnName defaultIndex = none ∨
     resolve_cell r columnName defaultIndex = some Cell.na →
      safe_get r columnName defaultIndex = "" ∧
      safe_get_int r columnName defaultIndex = .ok 0) ∧
    (parseFloat (safe_get r columnName defaultIndex) = none →
      safe_get_int r columnName defaultIndex = .ok 0) ∧
    (parseFloat (safe_get r columnName defaultIndex) = some .nan →
      safe_get_int r columnName defaultIndex = .ok 0) ∧
    (∀ q : Rat, parseFloat (safe_get r columnName defaultIndex) = some (.fin q) →
      safe_get_int r columnName defaultIndex = .ok (truncRat q)) ∧
    safe_float Cell.na = 0 ∧
    (∀ v : String, parseFloat v = none → safe_float (Cell.s v) = 0) := by
  refine ⟨?_, ?_, ?_, ?_, rfl, ?_⟩
  · intro h
    have hsg : safe_get r columnName defaultIndex = "" := by
      unfold safe_get
      rcases h with h | h
      · rw [h]
      · rw [h]
        simp
    refine ⟨hsg, ?_⟩
    unfold safe_get_int
    rw [hsg]
    simp
  · intro hnone
    unfold safe_get_int
    split
    · rw [hnone]
    · rfl
  · intro hnan
    unfold safe_get_int
    split
    · rw [hnan]
    · rfl
  · intro q hq
    unfold safe_get_int
    have hne := parseFloat_some_ne hq
    rw [if_pos hne, hq]
  · intro v hv
    show (match parseFloat v with | some (.fin q) => q | _ => 0 : Rat) = 0
    rw [hv]

/-- C4: the extraction helpers are *not* exception-free. On the text
`"inf"` — and on `"1e999"`, whose magnitude overflows to the IEEE
infinity — `float()` succeeds with `±inf`, and `int(±inf)` then raises
`OverflowError`; the handler at `data_processor.py:287` catches only
`(ValueError, TypeError)`, so `_safe_get_int` propagates the exception to
its caller instead of returning the documented zero default. -/
theorem safe_get_int_overflow_raises :
    safe_get_int ⟨["SABHASAD"], [Cell.s "inf"]⟩ "SABHASAD" 0 = .error "OverflowError" ∧
    safe_get_int ⟨["SABHASAD"], [Cell.s "1e999"]⟩ "SABHASAD" 0 = .error "OverflowError" ∧
    safe_get_int ⟨["SABHASAD"], [Cell.s "12.9"]⟩ "SABHASAD" 0 = .ok 12 := by
  refine ⟨?_, ?_, ?_⟩ <;> with_unfolding_all decide

/-! ## C5 — product resolution against the closed catalog -/

/-- A packing text containing no catalog name resolves to nothing. -/
theorem product_lookup_none (packing : String) :
    ∀ (i : Nat) (l : List (String × ProdInfo)),
      (∀ p ∈ l, occursIn (strUpper p.1) (strUpper packing) = false) →
      product_lookup packing i l = none := by
  intro i l
  induction l generalizing i with
  | nil => intro _; rfl
  | cons hd tl ih =>
    intro h
    obtain ⟨nm, info⟩ := hd
    unfold product_lookup
    rw [h (nm, info) (List.mem_cons_self _ _)]
    simp only [Bool.false_eq_true, if_false]
    exact ih (i + 1) (fun p hp => h p (List.mem_cons_of_mem _ hp))

/-- A successful lookup returns the id enumerated for an existing catalog
entry. -/
theorem product_lookup_mem (packing : String) :
    ∀ (l : List (String × ProdInfo)) (i : Nat) (pid : String) (rt : Rat),
      product_lookup packing i l = some (pid, rt) →
      ∃ nm, (nm, pid) ∈ enum_prod_ids i l := by
  intro l
  induction l with
  | nil => intro i pid rt h; simp [product_lookup] at h
  | cons hd tl ih =>
    intro i pid rt h
    obtain ⟨nm, info⟩ := hd
    unfold product_lookup at h
    by_cases hc : occursIn (strUpper nm) (strUpper packing) = true
    · rw [if_pos hc] at h
      obtain ⟨h1, _⟩ := Prod.mk.injEq .. ▸ Option.some.inj h
      exact ⟨nm, by rw [← h1]; exact List.mem_cons_self _ _⟩
    · rw [if_neg hc] at h
      obtain ⟨nm', hmem⟩ := ih (i + 1) pid rt h
      exact ⟨nm', List.mem_cons_of_mem _ hmem⟩

/-- C5 (counterexample): a sale-item candidate whose free text *matches* a
catalog entry by case-insensitive substring search (the claim's matching
criterion) but is not exactly equal to the catalog name ends the linking
step with a blank product id — so "matched descriptions resolve to the
existing catalog entry's id" is false of the persisted candidate. -/
theorem substring_matched_item_unlinked :
    (get_product_info "PREMIUM 5 LTR STEEL BARNI PACK").isSome = true ∧
    (link_item [] product_name_to_id itemSubstr).product_id = none := by
  refine ⟨by decide, by decide⟩

/-- C5 (amended): resolution never reaches outside the closed catalog — a
free text matching no catalog entry (substring search) resolves to `none`;
any id `get_product_info` returns is the id of an existing catalog entry;
the batch linking step leaves the product id blank when the free text
equals no catalog name exactly, and any id it stamps comes from the catalog
map. Only exactly-equal descriptions are stamped in the linking step. -/
theorem product_resolution_closed (packing : String) (im : List (String × Nat))
    (it : ItemRec) :
    ((∀ p ∈ product_mapping, occursIn (strUpper p.1) (strUpper packing) = false) →
      get_product_info packing = none) ∧
    (∀ pid rt, get_product_info packing = some (pid, rt) →
      ∃ nm, (nm, pid) ∈ product_name_to_id) ∧
    (it.product_id = none →
      (∀ p ∈ product_name_to_id, p.1 ≠ it.product_name) →
      (link_item im product_name_to_id it).product_id = none) ∧
    (∀ pid, (link_item im product_name_to_id it).product_id = some pid →
      it.product_id = some pid ∨ ∃ nm, (nm, pid) ∈ product_name_to_id) := by
  refine ⟨fun h => product_lookup_none packing 0 product_mapping h, ?_, ?_, ?_⟩
  · intro pid rt h
    exact product_lookup_mem packing product_mapping 0 pid rt h
  · intro h1 h2
    unfold link_item
    have hfn : product_name_to_id.find? (fun p => p.1 == it.product_name) = none := by
      rw [List.find?_eq_none]
      intro p hp
      simp [h2 p hp]
    cases hinv : im.find? (fun p => it.invoice_no == some p.1) with
    | none => simp only [hinv, hfn]; exact h1
    | some p0 => simp only [hinv, hfn]; exact h1
  · intro pid h
    unfold link_item at h
    cases hinv : im.find? (fun p => it.invoice_no == some p.1) with
    | none =>
      simp only [hinv] at h
      cases hp : product_name_to_id.find? (fun p => p.1 == it.product_name) with
      | none => rw [hp] at h; exact Or.inl h
      | some p =>
        rw [hp] at h
        simp only [Option.some.injEq] at h
        refine Or.inr ⟨p.1, ?_⟩
        rw [← h]
        simpa using List.mem_of_find?_eq_some hp
    | some p0 =>
      simp only [hinv] at h
      cases hp : product_name_to_id.find? (fun p => p.1 == it.product_name) with
      | none => rw [hp] at h; exact Or.inl h
      | some p =>
        rw [hp] at h
        simp only [Option.some.injEq] at h
        refine Or.inr ⟨p.1, ?_⟩
        rw [← h]
        simpa using List.mem_of_find?_eq_some hp

/-- C5 (witness): the spec's "Unknown Jumbo Pack" candidate resolves to no
product and keeps a blank product id through linking. -/
theorem product_resolution_closed_witness :
    get_product_info "Unknown Jumbo Pack" = none ∧
    (link_item [] product_name_to_id itemUnknown).product_id = none :=
  ⟨(product_resolution_closed "Unknown Jumbo Pack" [] itemUnknown).1 (by decide),
   (product_resolution_closed "Unknown Jumbo Pack" [] itemUnknown).2.2.1 (by decide) (by decide)⟩

/-! ## C6 — batch detail-line quantity/amount derivation -/

/-- C6: for a detail line whose packing text matched the catalog, the
recorded item derives the quantity as amount/rate exactly when the scanned
quantity is 0 and amount and rate are positive, derives the amount as
quantity × rate exactly when the scanned amount is not positive, and
otherwise records the scanned values as found. -/
theorem detail_line_arithmetic (f s : String) (inv : Option String) (packing : String)
    (cols : List String) (cells : List Cell) (cr q r a : Rat)
    (_hmatch : (get_product_info packing).isSome = true)
    (hscan : scan_qra cols cells cr = (q, r, a)) :
    (q = 0 → 0 < a → 0 < r →
      (process_detail_line f s inv packing cr cols cells).quantity = a / r ∧
      (process_detail_line f s inv packing cr cols cells).amount = a) ∧
    (q ≠ 0 → (process_detail_line f s inv packing cr cols cells).quantity = q) ∧
    (¬ 0 < a →
      (process_detail_line f s inv packing cr cols cells).quantity = q ∧
      (process_detail_line f s inv packing cr cols cells).amount = q * r) ∧
    (0 < a → (process_detail_line f s inv packing cr cols cells).amount = a) ∧
    (process_detail_line f s inv packing cr cols cells).rate = r := by
  have he : process_detail_line f s inv packing cr cols cells =
      detail_item f s inv packing q r a := by
    unfold process_detail_line
    rw [hscan]
  rw [he]
  simp only [detail_item]
  refine ⟨fun h1 h2 h3 => ?_, fun h1 => ?_, fun h1 => ?_, fun h1 => ?_, trivial⟩
  · exact ⟨by rw [if_pos ⟨h1, h2, h3⟩], by rw [if_pos h2]⟩
  · rw [if_neg (fun hc => h1 hc.1)]
  · refine ⟨by rw [if_neg (fun hc => h1 hc.2.1)], ?_⟩
    rw [if_neg h1, if_neg (fun hc => h1 hc.2.1)]
  · rw [if_pos h1]

/-- C6 (witness): the catalog-matched row with quantity 2 and rate 680 and
no amount column records quantity 2, amount 1360. -/
theorem detail_line_arithmetic_witness :
    (process_detail_line "f.xlsx" "S1" (some "INV001") "5 LTR STEEL BARNI" 680
        ["PACKING", "QTY", "RATE"]
        [Cell.s "5 LTR STEEL BARNI", Cell.num 2, Cell.num 680]).quantity = 2 ∧
    (process_detail_line "f.xlsx" "S1" (some "INV001") "5 LTR STEEL BARNI" 680
        ["PACKING", "QTY", "RATE"]
        [Cell.s "5 LTR STEEL BARNI", Cell.num 2, Cell.num 680]).amount = 1360 := by
  have h := (detail_line_arithmetic "f.xlsx" "S1" (some "INV001") "5 LTR STEEL BARNI"
      ["PACKING", "QTY", "RATE"] [Cell.s "5 LTR STEEL BARNI", Cell.num 2, Cell.num 680]
      680 2 680 0 (by decide) (by decide)).2.2.1 (by decide)
  refine ⟨h.1, ?_⟩
  rw [h.2]
  with_unfolding_all decide

/-! ## C7 — synthesized invoice numbers are distinct across ordinals -/

/-- In an equation between two lists each of the form
`prefix ++ '_' :: suffix` with underscore-free suffixes, the suffixes
agree (they both sit after the last underscore). -/
theorem underscore_suffix_eq :
    ∀ (a b d e : List Char), (∀ c ∈ d, c ≠ '_') → (∀ c ∈ e, c ≠ '_') →
      a ++ '_' :: d = b ++ '_' :: e → d = e := by
  intro a
  induction a with
  | nil =>
    intro b d e hd he h
    cases b with
    | nil => simpa using h
    | cons y b' =>
      simp only [List.nil_append, List.cons_append, List.cons.injEq] at h
      have : ('_' : Char) ∈ d := by
        rw [h.2]
        exact List.mem_append_right _ (List.mem_cons_self _ _)
      exact absurd rfl (hd '_' this)
  | cons x a' ih =>
    intro b d e hd he h
    cases b with
    | nil =>
      simp only [List.cons_append, List.nil_append, List.cons.injEq] at h
      have : ('_' : Char) ∈ e := by
        rw [← h.2]
        exact List.mem_append_right _ (List.mem_cons_self _ _)
      exact absurd rfl (he '_' this)
    | cons y b' =>
      simp only [List.cons_append, List.cons.injEq] at h
      exact ih b' d e hd he h.2

/-- The character data of a synthesized invoice: an underscore followed by
the decimal ordinal, after a prefix built from the file and sheet names. -/
theorem synth_invoice_data (f s : String) (c : Nat) :
    (synth_invoice f s c).data =
      ("INV_" ++ f ++ "_" ++ s).data ++ '_' :: (natStr c).data := by
  simp [synth_invoice, String.data_append]

/-- C7: two sale rows that both need a synthesized invoice number but have
different per-record ordinals get distinct invoice numbers — even across
sheets and files of the same batch. -/
theorem synth_invoice_distinct (f1 s1 f2 s2 : String) (c1 c2 : Nat) (h : c1 ≠ c2) :
    synth_invoice f1 s1 c1 ≠ synth_invoice f2 s2 c2 := by
  intro heq
  have hdata := congrArg String.data heq
  rw [synth_invoice_data, synth_invoice_data] at hdata
  have hsuffix := underscore_suffix_eq _ _ _ _
    (natStr_no_underscore c1) (natStr_no_underscore c2) hdata
  exact h (natStr_injective (String.ext hsuffix))

/-- C7 (witness): ordinals 1 and 2 in the same sheet give distinct
synthesized invoice numbers. -/
theorem synth_invoice_distinct_witness :
    synth_invoice "report.xlsx" "Sheet1" 1 ≠ synth_invoice "report.xlsx" "Sheet1" 2 :=
  synth_invoice_distinct "report.xlsx" "Sheet1" "report.xlsx" "Sheet1" 1 2 (by decide)

/-! ## C9 — fatal store errors are swallowed, not propagated -/

/-- With an unreachable store, the per-row handlers of the sales loop leave
store, creation count and processed count untouched. -/
theorem sales_rows_exc_unreachable (pm : List (String × Nat)) (codeFn : Nat → String)
    (defInv : String) :
    ∀ (rows : List Row) (s : SState),
      (rows.foldl (sales_row_step_exc .unreachable pm codeFn defInv) s).store = s.store ∧
      (rows.foldl (sales_row_step_exc .unreachable pm codeFn defInv) s).creations = s.creations ∧
      (rows.foldl (sales_row_step_exc .unreachable pm codeFn defInv) s).processed = s.processed := by
  intro rows
  induction rows with
  | nil => intro s; exact ⟨rfl, rfl, rfl⟩
  | cons r rest ih =>
    intro s
    rw [List.foldl_cons]
    have hstep : (sales_row_step_exc .unreachable pm codeFn defInv s r).store = s.store ∧
        (sales_row_step_exc .unreachable pm codeFn defInv s r).creations = s.creations ∧
        (sales_row_step_exc .unreachable pm codeFn defInv s r).processed = s.processed := by
      unfold sales_row_step_exc
      by_cases hskip : row_skip r = true
      · simp [hskip]
      · have hg : get_or_create_customer_exc .unreachable codeFn s.store s.creations
            (row_customer_name r) "" "" "" "" = (none, s.store, s.creations) := rfl
        simp [hskip, hg, pyTruthy]
    obtain ⟨h1, h2, h3⟩ := ih (sales_row_step_exc .unreachable pm codeFn defInv s r)
    exact ⟨h1.trans hstep.1, h2.trans hstep.2.1, h3.trans hstep.2.2⟩

/-- With an unreachable store, the customer-sheet loop writes nothing and
reports no processed rows. -/
theorem customer_rows_exc_unreachable :
    ∀ (rows : List Row) (st : Store) (b : Bool),
      rows.foldl (customer_fold_step_exc .unreachable) (st, b) = (st, b) := by
  intro rows
  induction rows with
  | nil => intro st b; rfl
  | cons r rest ih =>
    intro st b
    rw [List.foldl_cons]
    have hstep : customer_row_step_exc .unreachable st r = (st, false) := by
      unfold customer_row_step_exc
      by_cases hskip : row_skip r = true <;> simp [hskip]
    have harg : customer_fold_step_exc .unreachable (st, b) r = (st, b) := by
      unfold customer_fold_step_exc
      simp [hstep]
    rw [harg]
    exact ih st b

/-- With an unreachable store, one sheet iteration is a no-op. -/
theorem file_sheet_step_exc_unreachable (pm : List (String × Nat)) (codeFn : Nat → String)
    (defInv : String) (s : FState) (df : DataFrame) :
    file_sheet_step_exc .unreachable pm codeFn defInv s df = s := by
  unfold file_sheet_step_exc
  by_cases h1 : is_sales_sheet (clean_dataframe df) = true
  · obtain ⟨ha, hb, hc⟩ := sales_rows_exc_unreachable pm codeFn defInv
      (dfRows (clean_dataframe df)) ⟨s.store, s.creations, 0, []⟩
    simp only [h1, if_true, ha, hb, hc]
    simp
  · by_cases h2 : is_customer_sheet (clean_dataframe df) = true
    · have hr := customer_rows_exc_unreachable (dfRows (clean_dataframe df)) s.store false
      simp only [h1, h2, if_true, Bool.false_eq_true, if_false, hr]
      simp
    · by_cases h3 : is_distributor_sheet (clean_dataframe df) = true
      · simp [h1, h2, h3]
      · simp [h1, h2, h3]

/-- C9 (counterexample): on a workbook containing a well-formed sales
sheet, with the persistence gateway unreachable, `process_excel_file`
returns the normal failure value `False` — no exception reaches the
caller, contradicting the claim that fatal store errors propagate and
abort the invocation. -/
theorem store_error_returns_false :
    process_excel_file_exc .unreachable pm0 codeFn0 "INV_D" Store.empty [dfS] =
      .ok (Store.empty, false) := by
  with_unfolding_all rfl

/-- C9 (amended): every store failure is caught by the nested row-, sheet-
and file-level handlers; `process_excel_file` over an unreachable store
returns the normal value `False` with the store untouched, for any
workbook, and never lets the error escape. -/
theorem process_excel_file_swallows_store_errors (pm : List (String × Nat))
    (codeFn : Nat → String) (defInv : String) (st : Store) (sheets : List DataFrame) :
    process_excel_file_exc .unreachable pm codeFn defInv st sheets = .ok (st, false) := by
  unfold process_excel_file_exc
  have hfold : ∀ (s : FState),
      sheets.foldl (file_sheet_step_exc .unreachable pm codeFn defInv) s = s := by
    induction sheets with
    | nil => intro s; rfl
    | cons d ds ih =>
      intro s
      rw [List.foldl_cons, file_sheet_step_exc_unreachable]
      exact ih s
  rw [hfold]
  rfl

/-! ## C10 — interactive sales write guard -/

/-- A `(name, mobile)` hit names an id present in the customer table. -/
theorem find_customer_mem {st : Store} {n m : String} {cid : Nat}
    (h : find_customer st n m = some cid) :
    cid ∈ st.customers.map (·.customer_id) := by
  unfold find_customer at h
  cases hf : st.customers.find? (fun c => c.name == n && c.mobile == m) with
  | none => rw [hf] at h; simp at h
  | some c =>
    rw [hf] at h
    simp only [Option.map_some', Option.some.injEq] at h
    exact List.mem_map.mpr ⟨c, List.mem_of_find?_eq_some hf, h⟩

/-- A customer-code hit names an id present in the customer table. -/
theorem find_code_mem {st : Store} {code : String} {cid : Nat}
    (h : find_code st code = some cid) :
    cid ∈ st.customers.map (·.customer_id) := by
  unfold find_code at h
  cases hf : st.customers.find? (fun c => c.customer_code == code) with
  | none => rw [hf] at h; simp at h
  | some c =>
    rw [hf] at h
    simp only [Option.map_some', Option.some.injEq] at h
    exact List.mem_map.mpr ⟨c, List.mem_of_find?_eq_some hf, h⟩

/-- The id `_get_or_create_customer` returns is an id of the store it
returns. -/
theorem get_or_create_some_mem (codeFn : Nat → String) (st : Store) (k : Nat)
    (n m v t d : String) {cid : Nat}
    (h : (get_or_create_customer codeFn st k n m v t d).1 = some cid) :
    cid ∈ (get_or_create_customer codeFn st k n m v t d).2.1.customers.map (·.customer_id) := by
  unfold get_or_create_customer at h ⊢
  cases hf : find_customer st n m with
  | some c0 =>
    rw [hf] at h
    have h2 : (some c0 : Option Nat) = some cid := h
    exact Option.some.inj h2 ▸ find_customer_mem hf
  | none =>
    rw [hf] at h
    have h2 : find_code (add_customer st n m v t d (codeFn k)) (codeFn k) = some cid := h
    exact find_code_mem h2

/-- `_get_or_create_customer` touches only the customer table. -/
theorem get_or_create_store (codeFn : Nat → String) (st : Store) (k : Nat)
    (n m v t d : String) :
    (get_or_create_customer codeFn st k n m v t d).2.1.sales = st.sales ∧
    (get_or_create_customer codeFn st k n m v t d).2.1.sale_items = st.sale_items ∧
    st.customers <+: (get_or_create_customer codeFn st k n m v t d).2.1.customers := by
  unfold get_or_create_customer
  cases hf : find_customer st n m with
  | some c0 => exact ⟨rfl, rfl, List.prefix_rfl⟩
  | none => exact ⟨rfl, rfl, List.prefix_append _ _⟩

/-- The sale write touches only the sales tables. -/
theorem maybe_add_sale_customers (pm : List (String × Nat)) (defInv : String)
    (st : Store) (r : Row) (cid? : Option Nat) :
    (maybe_add_sale pm defInv st r cid?).1.customers = st.customers := by
  unfold maybe_add_sale
  split
  · split
    · rfl
    · rfl
  · rfl

/-- A product id returned by `_get_product_id` is a value of the product
mapping. -/
theorem get_product_id_mem {pm : List (String × Nat)} {nm : String} {pid : Nat}
    (h : get_product_id pm nm = some pid) : pid ∈ pm.map (·.2) := by
  unfold get_product_id at h
  cases hf : pm.find? (fun p => p.1 == strTrim (strUpper nm)) with
  | none => rw [hf] at h; simp at h
  | some p =>
    rw [hf] at h
    simp only [Option.map_some', Option.some.injEq] at h
    exact List.mem_map.mpr ⟨p, List.mem_of_find?_eq_some hf, h⟩

/-- A skipped row leaves the sales-loop state unchanged. -/
theorem sales_row_step_skip (pm : List (String × Nat)) (codeFn : Nat → String)
    (defInv : String) (s : SState) (r : Row) (h : row_skip r = true) :
    sales_row_step pm codeFn defInv s r = s := by
  unfold sales_row_step
  rw [if_pos h]

/-- C10 (counterexample): a row whose product matches nothing in the
catalog writes no sale and no sale item, but the resolution step has
already inserted a brand-new customer — the row is *not* "skipped without
writing anything". -/
theorem unmatched_product_row_still_creates_customer :
    (sales_row_step pm0 codeFn0 "INV_D" ⟨Store.empty, 0, 0, []⟩ rowNoProd).store.sales = [] ∧
    (sales_row_step pm0 codeFn0 "INV_D" ⟨Store.empty, 0, 0, []⟩ rowNoProd).store.sale_items = [] ∧
    (sales_row_step pm0 codeFn0 "INV_D" ⟨Store.empty, 0, 0, []⟩
        rowNoProd).store.customers.length = 1 := by
  refine ⟨?_, ?_, ?_⟩ <;> with_unfolding_all decide

/-- C10 (amended): a sale and its single item are written exactly when the
resolved customer id is truthy, the product name maps into the catalog and
the quantity is positive; rows failing the guard write no sale and no sale
item (though customer resolution may have inserted a customer); a written
sale references a customer id present in the store and a product id from
the mapping, and its item's rate is amount divided by quantity. -/
theorem interactive_sale_write_guard (pm : List (String × Nat)) (codeFn : Nat → String)
    (defInv : String) (s : SState) (r : Row) :
    (row_skip r = true → sales_row_step pm codeFn defInv s r = s) ∧
    (row_skip r = false →
      ((pyTruthy (get_or_create_customer codeFn s.store s.creations
            (row_customer_name r) "" "" "" "").1 = false ∨
        pyTruthy (get_product_id pm (row_product_name r)) = false ∨
        ¬ 0 < row_quantity r) →
        (sales_row_step pm codeFn defInv s r).store.sales = s.store.sales ∧
        (sales_row_step pm codeFn defInv s r).store.sale_items = s.store.sale_items) ∧
      (∀ cid pid : Nat,
        (get_or_create_customer codeFn s.store s.creations
            (row_customer_name r) "" "" "" "").1 = some cid →
        cid ≠ 0 →
        get_product_id pm (row_product_name r) = some pid →
        pid ≠ 0 →
        0 < row_quantity r →
        cid ∈ (sales_row_step pm codeFn defInv s r).store.customers.map (·.customer_id) ∧
        pid ∈ pm.map (·.2) ∧
        (sales_row_step pm codeFn defInv s r).store.sales =
          (get_or_create_customer codeFn s.store s.creations
              (row_customer_name r) "" "" "" "").2.1.sales ++
            [{ sale_id := (get_or_create_customer codeFn s.store s.creations
                  (row_customer_name r) "" "" "" "").2.1.sales.length + 1,
               invoice_no := row_invoice_no defInv r, customer_id := cid }] ∧
        (sales_row_step pm codeFn defInv s r).store.sale_items =
          (get_or_create_customer codeFn s.store s.creations
              (row_customer_name r) "" "" "" "").2.1.sale_items ++
            [{ item_id := (get_or_create_customer codeFn s.store s.creations
                  (row_customer_name r) "" "" "" "").2.1.sale_items.length + 1,
               sale_id := (get_or_create_customer codeFn s.store s.creations
                  (row_customer_name r) "" "" "" "").2.1.sales.length + 1,
               product_id := pid, quantity := row_quantity r,
               rate := row_amount r / row_quantity r }])) := by
  refine ⟨sales_row_step_skip pm codeFn defInv s r, fun hskip => ⟨?_, ?_⟩⟩
  · intro hbad
    unfold sales_row_step
    simp only [hskip, Bool.false_eq_true, if_false]
    have hguard : (pyTruthy (get_or_create_customer codeFn s.store s.creations
        (row_customer_name r) "" "" "" "").1 &&
        pyTruthy (get_product_id pm (row_product_name r)) &&
        decide (0 < row_quantity r)) = false := by
      rcases hbad with h | h | h
      · rw [h]; rfl
      · rw [h]; simp
      · simp [h]
    unfold maybe_add_sale
    rw [if_neg (by rw [hguard]; simp)]
    exact ⟨(get_or_create_store codeFn s.store s.creations
        (row_customer_name r) "" "" "" "").1,
      (get_or_create_store codeFn s.store s.creations
        (row_customer_name r) "" "" "" "").2.1⟩
  · intro cid pid hcid hcid0 hpid hpid0 hq
    unfold sales_row_step
    simp only [hskip, Bool.false_eq_true, if_false]
    have hguard : (pyTruthy (get_or_create_customer codeFn s.store s.creations
        (row_customer_name r) "" "" "" "").1 &&
        pyTruthy (get_product_id pm (row_product_name r)) &&
        decide (0 < row_quantity r)) = true := by
      rw [hcid, hpid]
      simp [pyTruthy, hcid0, hpid0, hq]
    unfold maybe_add_sale
    rw [if_pos (by rw [hguard])]
    rw [hcid, hpid]
    refine ⟨?_, get_product_id_mem hpid, rfl, rfl⟩
    show cid ∈ (add_sale _ _ _ _).customers.map (·.customer_id)
    unfold add_sale
    simp only []
    exact get_or_create_some_mem codeFn s.store s.creations
      (row_customer_name r) "" "" "" "" hcid

/-- C10 (witness): a row passing the full guard writes exactly one sale and
one item, the item's rate being amount/quantity = 1360/2 = 680. -/
theorem interactive_sale_write_guard_witness :
    (sales_row_step pm0 codeFn0 "INV_D" ⟨Store.empty, 0, 0, []⟩ rowOk).store.sales =
      [{ sale_id := 1, invoice_no := "I1", customer_id := 1 }] ∧
    (sales_row_step pm0 codeFn0 "INV_D" ⟨Store.empty, 0, 0, []⟩ rowOk).store.sale_items =
      [{ item_id := 1, sale_id := 1, product_id := 1, quantity := 2, rate := 680 }] := by
  have h := ((interactive_sale_write_guard pm0 codeFn0 "INV_D"
      ⟨Store.empty, 0, 0, []⟩ rowOk).2 (by decide)).2 1 1
      (by with_unfolding_all decide) (by decide) (by with_unfolding_all decide) (by decide)
      (by with_unfolding_all decide)
  obtain ⟨_, _, hsales, hitems⟩ := h
  constructor
  · rw [hsales]
    with_unfolding_all decide
  · rw [hitems]
    with_unfolding_all decide

/-! ## C1 — re-ingestion and customer identity resolution -/

/-- The customer row the sales path inserts on a lookup miss. -/
def new_customer (st : Store) (name code : String) : Customer :=
  { customer_id := st.customers.length + 1, customer_code := code,
    name := name, mobile := "", village := "", taluka := "", district := "" }

/-- A sales row whose customer lookup hits changes no customer row, no
creation counter, and records the found id. -/
theorem sales_row_step_hit (pm : List (String × Nat)) (codeFn : Nat → String)
    (defInv : String) (s : SState) (r : Row) {cid : Nat}
    (hskip : row_skip r = false)
    (hf : find_customer s.store (row_customer_name r) "" = some cid) :
    (sales_row_step pm codeFn defInv s r).store.customers = s.store.customers ∧
    (sales_row_step pm codeFn defInv s r).creations = s.creations ∧
    (sales_row_step pm codeFn defInv s r).resolutions = s.resolutions ++ [some cid] := by
  unfold sales_row_step
  simp only [hskip, Bool.false_eq_true, if_false]
  have hres : get_or_create_customer codeFn s.store s.creations
      (row_customer_name r) "" "" "" "" = (some cid, s.store, s.creations) := by
    unfold get_or_create_customer
    rw [hf]
  simp only [hres]
  refine ⟨maybe_add_sale_customers pm defInv s.store r (some cid), ?_, ?_⟩ <;> trivial

/-- A sales row whose customer lookup misses appends exactly one customer
built from the row, bumps the creation counter, and records the re-read of
the synthesized code. -/
theorem sales_row_step_miss (pm : List (String × Nat)) (codeFn : Nat → String)
    (defInv : String) (s : SState) (r : Row)
    (hskip : row_skip r = false)
    (hf : find_customer s.store (row_customer_name r) "" = none) :
    (sales_row_step pm codeFn defInv s r).store.customers =
      s.store.customers ++ [new_customer s.store (row_customer_name r) (codeFn s.creations)] ∧
    (sales_row_step pm codeFn defInv s r).creations = s.creations + 1 ∧
    (sales_row_step pm codeFn defInv s r).resolutions =
      s.resolutions ++ [find_code (add_customer s.store (row_customer_name r) "" "" "" ""
        (codeFn s.creations)) (codeFn s.creations)] := by
  unfold sales_row_step
  simp only [hskip, Bool.false_eq_true, if_false]
  have hres : get_or_create_customer codeFn s.store s.creations
      (row_customer_name r) "" "" "" "" =
      (find_code (add_customer s.store (row_customer_name r) "" "" "" "" (codeFn s.creations))
        (codeFn s.creations),
       add_customer s.store (row_customer_name r) "" "" "" "" (codeFn s.creations),
       s.creations + 1) := by
    unfold get_or_create_customer
    rw [hf]
  simp only [hres]
  refine ⟨?_, by trivial, by trivial⟩
  rw [maybe_add_sale_customers]
  rfl

/-- Each sales row only appends to the customer table. -/
theorem sales_row_step_grow (pm : List (String × Nat)) (codeFn : Nat → String)
    (defInv : String) (s : SState) (r : Row) :
    s.store.customers <+: (sales_row_step pm codeFn defInv s r).store.customers := by
  by_cases hskip : row_skip r = true
  · rw [sales_row_step_skip pm codeFn defInv s r hskip]
  · have hskip' : row_skip r = false := by simpa using hskip
    cases hf : find_customer s.store (row_customer_name r) "" with
    | some cid =>
      rw [(sales_row_step_hit pm codeFn defInv s r hskip' hf).1]
    | none =>
      rw [(sales_row_step_miss pm codeFn defInv s r hskip' hf).1]
      exact List.prefix_append _ _

/-- A sales-sheet run only appends to the customer table. -/
theorem run_rows_grow (pm : List (String × Nat)) (codeFn : Nat → String) (defInv : String) :
    ∀ (rows : List Row) (s : SState),
      s.store.customers <+:
        (rows.foldl (sales_row_step pm codeFn defInv) s).store.customers := by
  intro rows
  induction rows with
  | nil => intro s; exact List.prefix_rfl
  | cons r rest ih =>
    intro s
    rw [List.foldl_cons]
    exact (sales_row_step_grow pm codeFn defInv s r).trans (ih _)

/-- After processing a non-skipped row, its customer is findable. -/
theorem sales_row_step_presence (pm : List (String × Nat)) (codeFn : Nat → String)
    (defInv : String) (s : SState) (r : Row) (hskip : row_skip r = false) :
    ∃ cid, find_customer (sales_row_step pm codeFn defInv s r).store
      (row_customer_name r) "" = some cid := by
  cases hf : find_customer s.store (row_customer_name r) "" with
  | some cid =>
    refine ⟨cid, ?_⟩
    rw [find_customer_congr (sales_row_step_hit pm codeFn defInv s r hskip hf).1]
    exact hf
  | none =>
    refine ⟨s.store.customers.length + 1, ?_⟩
    have h1 := (sales_row_step_miss pm codeFn defInv s r hskip hf).1
    have hn : s.store.customers.find?
        (fun c => c.name == row_customer_name r && c.mobile == "") = none :=
      Option.map_eq_none'.mp hf
    unfold find_customer
    rw [h1, List.find?_append, hn]
    simp [new_customer]

/-- Every non-skipped row of a processed sheet resolves against the final
store. -/
theorem run_rows_presence (pm : List (String × Nat)) (codeFn : Nat → String) (defInv : String) :
    ∀ (rows : List Row) (s : SState) (r : Row), r ∈ rows → row_skip r = false →
      ∃ cid, find_customer ((rows.foldl (sales_row_step pm codeFn defInv) s).store)
        (row_customer_name r) "" = some cid := by
  intro rows
  induction rows with
  | nil => intro s r hr _; exact absurd hr (List.not_mem_nil r)
  | cons hd tl ih =>
    intro s r hr hskip
    rw [List.foldl_cons]
    rcases List.mem_cons.mp hr with rfl | htl
    · obtain ⟨cid, hcid⟩ := sales_row_step_presence pm codeFn defInv s r hskip
      exact ⟨cid, find_customer_mono (run_rows_grow pm codeFn defInv tl _) hcid⟩
    · exact ih _ r htl hskip

/-- A sales-sheet run in which every row's customer already exists changes
no customer row and resolves each row by lookup in the unchanged store. -/
theorem run2_stable (pm : List (String × Nat)) (codeFn : Nat → String) (defInv : String) :
    ∀ (rows : List Row) (s : SState),
      (∀ r ∈ rows, row_skip r = false →
        (find_customer s.store (row_customer_name r) "").isSome = true) →
      (rows.foldl (sales_row_step pm codeFn defInv) s).store.customers = s.store.customers ∧
      (rows.foldl (sales_row_step pm codeFn defInv) s).resolutions =
        s.resolutions ++ res_map s.store rows := by
  intro rows
  induction rows with
  | nil => intro s _; exact ⟨rfl, by simp [res_map]⟩
  | cons hd tl ih =>
    intro s hall
    rw [List.foldl_cons]
    by_cases hskip : row_skip hd = true
    · rw [sales_row_step_skip pm codeFn defInv s hd hskip]
      obtain ⟨h1, h2⟩ := ih s (fun r hr h => hall r (List.mem_cons_of_mem _ hr) h)
      refine ⟨h1, ?_⟩
      rw [h2]
      have hd0 : res_map s.store (hd :: tl) = res_map s.store tl := by
        simp [res_map, hskip]
      rw [hd0]
    · have hskip' : row_skip hd = false := by simpa using hskip
      obtain ⟨cid, hcid⟩ := Option.isSome_iff_exists.mp
        (hall hd (List.mem_cons_self _ _) hskip')
      obtain ⟨h1, _h2, h3⟩ := sales_row_step_hit pm codeFn defInv s hd hskip' hcid
      obtain ⟨ih1, ih2⟩ := ih (sales_row_step pm codeFn defInv s hd) (fun r hr h => by
        rw [find_customer_congr h1]
        exact hall r (List.mem_cons_of_mem _ hr) h)
      refine ⟨ih1.trans h1, ?_⟩
      rw [ih2, h3]
      have hrtl : res_map (sales_row_step pm codeFn defInv s hd).store tl =
          res_map s.store tl := by
        unfold res_map
        exact List.map_congr_left (fun r _ => find_customer_congr h1 _ _)
      have hhd : res_map s.store (hd :: tl) = some cid :: res_map s.store tl := by
        simp [res_map, hskip', hcid]
      rw [hrtl, hhd]
      simp

/-- First-run characterization under fresh codes: the run resolves every
processed row to the `(name, "")` lookup in its own final store, and all
customers it creates carry codes from the synthesized-code stream. -/
theorem run1_resolutions (pm : List (String × Nat)) (codeFn : Nat → String) (defInv : String)
    (st0 : Store) (hinj : Function.Injective codeFn)
    (hab : ∀ k, ∀ c ∈ st0.customers, c.customer_code ≠ codeFn k) :
    ∀ (rows : List Row) (s : SState), created_by codeFn st0 s →
      created_by codeFn st0 (rows.foldl (sales_row_step pm codeFn defInv) s) ∧
      (rows.foldl (sales_row_step pm codeFn defInv) s).resolutions =
        s.resolutions ++
          res_map ((rows.foldl (sales_row_step pm codeFn defInv) s).store) rows := by
  intro rows
  induction rows with
  | nil => intro s hcb; exact ⟨hcb, by simp [res_map]⟩
  | cons hd tl ih =>
    intro s hcb
    rw [List.foldl_cons]
    by_cases hskip : row_skip hd = true
    · rw [sales_row_step_skip pm codeFn defInv s hd hskip]
      obtain ⟨hcb', hres⟩ := ih s hcb
      refine ⟨hcb', ?_⟩
      rw [hres]
      have hd0 : res_map (tl.foldl (sales_row_step pm codeFn defInv) s).store (hd :: tl) =
          res_map (tl.foldl (sales_row_step pm codeFn defInv) s).store tl := by
        simp [res_map, hskip]
      rw [hd0]
    · have hskip' : row_skip hd = false := by simpa using hskip
      cases hf : find_customer s.store (row_customer_name hd) "" with
      | some cid =>
        obtain ⟨h1, h2, h3⟩ := sales_row_step_hit pm codeFn defInv s hd hskip' hf
        have hcb1 : created_by codeFn st0 (sales_row_step pm codeFn defInv s hd) := by
          obtain ⟨ext, he, hcodes⟩ := hcb
          exact ⟨ext, by rw [h1]; exact he,
            fun c hc => by rw [h2]; exact hcodes c hc⟩
        obtain ⟨hcbout, hres⟩ := ih _ hcb1
        refine ⟨hcbout, ?_⟩
        rw [hres, h3]
        have hout : find_customer
            (tl.foldl (sales_row_step pm codeFn defInv)
              (sales_row_step pm codeFn defInv s hd)).store
            (row_customer_name hd) "" = some cid := by
          apply find_customer_mono (run_rows_grow pm codeFn defInv tl _)
          rw [find_customer_congr h1]
          exact hf
        have hhd : res_map
            (tl.foldl (sales_row_step pm codeFn defInv)
              (sales_row_step pm codeFn defInv s hd)).store (hd :: tl) =
            some cid :: res_map
              (tl.foldl (sales_row_step pm codeFn defInv)
                (sales_row_step pm codeFn defInv s hd)).store tl := by
          simp [res_map, hskip', hout]
        rw [hhd]
        simp
      | none =>
        obtain ⟨ext, he, hcodes⟩ := hcb
        obtain ⟨h1, h2, h3⟩ := sales_row_step_miss pm codeFn defInv s hd hskip' hf
        have hfcode : find_code (add_customer s.store (row_customer_name hd) "" "" "" ""
            (codeFn s.creations)) (codeFn s.creations) =
            some (s.store.customers.length + 1) := by
          have hn : s.store.customers.find?
              (fun c => c.customer_code == codeFn s.creations) = none := by
            rw [List.find?_eq_none]
            intro c hc
            rw [he] at hc
            rcases List.mem_append.mp hc with h | h
            · simp only [beq_iff_eq]
              exact hab s.creations c h
            · obtain ⟨j, hj, hcode⟩ := hcodes c h
              simp only [beq_iff_eq, hcode]
              intro heq
              exact absurd (hinj heq) (Nat.ne_of_lt hj)
          unfold find_code add_customer
          rw [List.find?_append, hn]
          simp
        have hcb1 : created_by codeFn st0 (sales_row_step pm codeFn defInv s hd) := by
          refine ⟨ext ++ [new_customer s.store (row_customer_name hd) (codeFn s.creations)],
            ?_, ?_⟩
          · rw [h1, he, List.append_assoc]
          · intro c hc
            rcases List.mem_append.mp hc with h | h
            · obtain ⟨j, hj, hcode⟩ := hcodes c h
              exact ⟨j, by rw [h2]; omega, hcode⟩
            · have hc' : c = new_customer s.store (row_customer_name hd)
                  (codeFn s.creations) := by simpa using h
              subst hc'
              exact ⟨s.creations, by rw [h2]; omega, rfl⟩
        obtain ⟨hcbout, hres⟩ := ih _ hcb1
        refine ⟨hcbout, ?_⟩
        rw [hres, h3, hfcode]
        have hn' : s.store.customers.find?
            (fun c => c.name == row_customer_name hd && c.mobile == "") = none :=
          Option.map_eq_none'.mp hf
        have hst1 : find_customer (sales_row_step pm codeFn defInv s hd).store
            (row_customer_name hd) "" = some (s.store.customers.length + 1) := by
          unfold find_customer
          rw [h1, List.find?_append, hn']
          simp [new_customer]
        have hout : find_customer
            (tl.foldl (sales_row_step pm codeFn defInv)
              (sales_row_step pm codeFn defInv s hd)).store
            (row_customer_name hd) "" = some (s.store.customers.length + 1) :=
          find_customer_mono (run_rows_grow pm codeFn defInv tl _) hst1
        have hhd : res_map
            (tl.foldl (sales_row_step pm codeFn defInv)
              (sales_row_step pm codeFn defInv s hd)).store (hd :: tl) =
            some (s.store.customers.length + 1) :: res_map
              (tl.foldl (sales_row_step pm codeFn defInv)
                (sales_row_step pm codeFn defInv s hd)).store tl := by
          simp [res_map, hskip', hout]
        rw [hhd]
        simp

/-- C1 (counterexample): `process_excel_file` on a customer sheet inserts
every row unconditionally, so re-running it on the identical file with no
store mutation in between duplicates the `(name, mobile)` pair — the first
run leaves one `(Bob, 99)` row, the second leaves two. -/
theorem customer_sheet_reingest_duplicates :
    ((process_excel_file [] codeFn0 "INV_D" Store.empty [dfC]).1.customers.filter
        (fun c => c.name == "Bob" && c.mobile == "99")).length = 1 ∧
    ((process_excel_file [] codeFn0 "INV_D"
        (process_excel_file [] codeFn0 "INV_D" Store.empty [dfC]).1 [dfC]).1.customers.filter
        (fun c => c.name == "Bob" && c.mobile == "99")).length = 2 := by
  refine ⟨?_, ?_⟩ <;> with_unfolding_all decide

/-- C1 (amended): for a file whose sheet classifies as a *sales* sheet —
the path that resolves customers through the `(name, mobile)` lookup — and
fresh synthesized customer codes, re-running `process_excel_file` on the
identical file with no store mutation in between creates no customer row
at all (in particular no duplicate for any `(name, mobile)` pair) and
resolves every row to the same customer id as the first run. The
customer-sheet path violates this, per the counterexample. -/
theorem reingest_sales_sheet_idempotent (pm : List (String × Nat))
    (codeFn codeFn' : Nat → String) (defInv defInv' : String) (st0 : Store) (df : DataFrame)
    (hsales : is_sales_sheet (clean_dataframe df) = true)
    (hfresh : fresh_codes codeFn st0) :
    ((process_excel_file pm codeFn' defInv'
        (process_excel_file pm codeFn defInv st0 [df]).1 [df]).1).customers =
      ((process_excel_file pm codeFn defInv st0 [df]).1).customers ∧
    (run_sales_rows pm codeFn' defInv' (process_excel_file pm codeFn defInv st0 [df]).1 0
        (dfRows (clean_dataframe df))).resolutions =
      (run_sales_rows pm codeFn defInv st0 0 (dfRows (clean_dataframe df))).resolutions := by
  obtain ⟨hinj, hab⟩ := hfresh
  have hfile : ∀ (cf : Nat → String) (di : String) (st : Store),
      (process_excel_file pm cf di st [df]).1 =
        (run_sales_rows pm cf di st 0 (dfRows (clean_dataframe df))).store := by
    intro cf di st
    unfold process_excel_file file_sheet_step
    simp [hsales, run_sales_rows]
  have hrun1 := run1_resolutions pm codeFn defInv st0 hinj hab
    (dfRows (clean_dataframe df)) ⟨st0, 0, 0, []⟩ ⟨[], by simp, by simp⟩
  have hpres : ∀ r ∈ dfRows (clean_dataframe df), row_skip r = false →
      (find_customer (run_sales_rows pm codeFn defInv st0 0
        (dfRows (clean_dataframe df))).store (row_customer_name r) "").isSome = true := by
    intro r hr hskip
    obtain ⟨cid, hcid⟩ := run_rows_presence pm codeFn defInv
      (dfRows (clean_dataframe df)) ⟨st0, 0, 0, []⟩ r hr hskip
    unfold run_sales_rows
    rw [hcid]
    rfl
  have hrun2 := run2_stable pm codeFn' defInv' (dfRows (clean_dataframe df))
    ⟨(run_sales_rows pm codeFn defInv st0 0 (dfRows (clean_dataframe df))).store, 0, 0, []⟩
    (fun r hr h => hpres r hr h)
  constructor
  · rw [hfile codeFn' defInv', hfile codeFn defInv]
    exact hrun2.1
  · rw [hfile codeFn defInv]
    have e1 : (run_sales_rows pm codeFn defInv st0 0
        (dfRows (clean_dataframe df))).resolutions =
        res_map (run_sales_rows pm codeFn defInv st0 0
          (dfRows (clean_dataframe df))).store (dfRows (clean_dataframe df)) := by
      have := hrun1.2
      unfold run_sales_rows
      simpa using this
    have e2 : (run_sales_rows pm codeFn' defInv'
        (run_sales_rows pm codeFn defInv st0 0 (dfRows (clean_dataframe df))).store 0
        (dfRows (clean_dataframe df))).resolutions =
        res_map (run_sales_rows pm codeFn defInv st0 0
          (dfRows (clean_dataframe df))).store (dfRows (clean_dataframe df)) := by
      have := hrun2.2
      unfold run_sales_rows
      simpa using this
    rw [e2, e1]

/-- The deterministic code stream is injective (distinct ordinals give
distinct codes). -/
theorem codeFn0_injective : Function.Injective codeFn0 := by
  intro a b h
  have hd := congrArg String.data h
  have ha : (codeFn0 a).data = ['C', 'U', 'S', 'T'] ++ '_' :: (natStr a).data := by
    show ("CUST_" ++ natStr a).data = _
    rw [String.data_append]
    rfl
  have hb : (codeFn0 b).data = ['C', 'U', 'S', 'T'] ++ '_' :: (natStr b).data := by
    show ("CUST_" ++ natStr b).data = _
    rw [String.data_append]
    rfl
  rw [ha, hb] at hd
  exact natStr_injective (String.ext (underscore_suffix_eq _ _ _ _
    (natStr_no_underscore a) (natStr_no_underscore b) hd))

/-- C1 (witness): re-running the one-sales-sheet workbook `dfS` from the
empty store with fresh deterministic codes reproduces the same customer
table and the same per-row resolutions. -/
theorem reingest_sales_sheet_idempotent_witness :
    ((process_excel_file pm0 codeFn0 "X"
        (process_excel_file pm0 codeFn0 "D" Store.empty [dfS]).1 [dfS]).1).customers =
      ((process_excel_file pm0 codeFn0 "D" Store.empty [dfS]).1).customers ∧
    (run_sales_rows pm0 codeFn0 "X" (process_excel_file pm0 codeFn0 "D" Store.empty [dfS]).1 0
        (dfRows (clean_dataframe dfS))).resolutions =
      (run_sales_rows pm0 codeFn0 "D" Store.empty 0 (dfRows (clean_dataframe dfS))).resolutions :=
  reingest_sales_sheet_idempotent pm0 codeFn0 codeFn0 "D" "X" Store.empty dfS
    (by decide) ⟨codeFn0_injective, fun _ c hc => absurd hc (List.not_mem_nil c)⟩

end PCAgent
